import Mathlib

/-!
Shallow embedding of the remote-action orchestration engine of
`app/lib/MicrosoftDefender.py` (machine-availability gate, live-response job
lifecycle tracker, per-machine action sequencer, remediation planner).

Network interactions are modelled as oracles: each function takes the sequence
of vendor responses it would receive, indexed in call order.  Python `None`
results of the client helpers become `Option.none`; a JSON body carrying an
`error` field becomes a dedicated constructor.  Python's float division
`a / b` in loop guards is modelled exactly as rational division over `ℚ`.
-/

namespace MSDefender

namespace MACHINE_ACTION_STATUS

/-- Modelled from the spec: `app/config/conf.py` (`MACHINE_ACTION_STATUS`) is
not under `src/`.  Per spec section 4.3, this is the vendor "succeeded" code. -/
def SUCCEEDED : String := "Succeeded"

/-- Modelled from the spec: `app/config/conf.py` is not under `src/`.  Per
spec sections 3 and 4.3, the vendor failure set (failed / timed out /
cancelled vendor codes). -/
def FAIL : List String := ["Failed", "TimeOut", "Cancelled"]

/-- Modelled from the spec: `app/config/conf.py` is not under `src/`.  Per
spec section 4.2, the not-available set holds the vendor busy states
(`Pending`, `InProgress`). -/
def NOT_AVAILABLE : List String := ["Pending", "InProgress"]

/-- Modelled from the spec: `app/config/conf.py` is not under `src/`.  The
status code `wait_live_response` assigns when it forces a timeout. -/
def TIMEOUT : String := "TimeOut"

end MACHINE_ACTION_STATUS

/-- Per-action-kind policy knobs consumed by `run_automated_machine_actions`
(`ACTIVE` flag and trigger verdict list, as in `config.MACHINE_ACTION.<KIND>`). -/
structure ActionKindConfig where
  ACTIVE : Bool
  VERDICTS : List String
deriving Repr, DecidableEq

/-- The `config.MACHINE_ACTION` values read by the orchestration code:
timeouts and poll interval (`SLEEP`), plus the per-kind policies. -/
structure MachineActionConfig where
  MACHINE_TIMEOUT : Nat
  JOB_TIMEOUT : Nat
  SLEEP : Nat
  ISOLATION : ActionKindConfig
  ANTI_VIRUS_SCAN : ActionKindConfig
  COLLECT_INVESTIGATION_PACKAGE : ActionKindConfig
  STOP_AND_QUARANTINE_FILE : ActionKindConfig
deriving Repr, DecidableEq

/-- One entry of a machine action's `commands` list
(`command["index"]`, `command["command"]["type"]`, `command["errors"]`,
`command["commandStatus"]`). -/
structure LRCommand where
  index : Nat
  ctype : String
  errors : List String
  commandStatus : String
deriving Repr, DecidableEq

/-- A machine action record as returned by the vendor API
(`GET /machineactions/...`): the fields the orchestration reads. -/
structure MachineAction where
  id : String
  status : String
  commands : List LRCommand
deriving Repr, DecidableEq

/-- Python loop guards compare `num / den > c` with float division; modelled
exactly as the rational inequality `(c : ℚ) < num / den`. -/
def guardQ (num den c : Nat) : Bool :=
  decide ((c : ℚ) < (num : ℚ) / (den : ℚ))

lemma guardQ_counter_lt {num den c : Nat} (h : guardQ num den c = true) :
    c < num := by
  unfold guardQ at h
  rw [decide_eq_true_eq] at h
  rcases Nat.eq_zero_or_pos den with hd | hd
  · subst hd
    rw [Nat.cast_zero, div_zero] at h
    exact absurd h (not_lt.mpr (by positivity))
  · have hd' : (1 : ℚ) ≤ (den : ℚ) := by exact_mod_cast hd
    have hle : (num : ℚ) / (den : ℚ) ≤ (num : ℚ) :=
      div_le_self (by positivity) hd'
    exact_mod_cast lt_of_lt_of_le h hle

lemma guardQ_iff_mul {num den c : Nat} (hden : 0 < den) :
    guardQ num den c = true ↔ c * den < num := by
  unfold guardQ
  rw [decide_eq_true_eq]
  have hd' : (0 : ℚ) < (den : ℚ) := by exact_mod_cast hden
  rw [lt_div_iff₀ hd']
  exact_mod_cast Iff.rfl

/-- Ceiling division on naturals, `⌈num / den⌉` for positive `den`. -/
def ceilDivNat (num den : Nat) : Nat := (num + den - 1) / den

lemma lt_ceilDivNat_of_mul_lt {num den c : Nat} (hden : 0 < den)
    (h : c * den < num) : c < ceilDivNat num den := by
  unfold ceilDivNat
  have h2 : c + 1 ≤ (num + den - 1) / den := by
    rw [Nat.le_div_iff_mul_le hden, Nat.add_mul, one_mul]
    omega
  omega

lemma ceilDivNat_mul_ge {num den : Nat} (hden : 0 < den) :
    num ≤ ceilDivNat num den * den := by
  unfold ceilDivNat
  have h2 := Nat.div_add_mod (num + den - 1) den
  have h3 : (num + den - 1) % den < den := Nat.mod_lt _ hden
  rw [Nat.mul_comm den ((num + den - 1) / den)] at h2
  omega

lemma guardQ_false_of_ceil {num den c : Nat} (hden : 0 < den)
    (h : ceilDivNat num den ≤ c) : guardQ num den c = false := by
  rw [Bool.eq_false_iff]
  intro hg
  rw [guardQ_iff_mul hden] at hg
  have := @ceilDivNat_mul_ge num den hden
  have : num ≤ c * den := le_trans this (Nat.mul_le_mul_right _ h)
  omega

lemma guardQ_lt_ceil {num den c : Nat} (hden : 0 < den)
    (h : guardQ num den c = true) : c < ceilDivNat num den :=
  lt_ceilDivNat_of_mul_lt hden ((guardQ_iff_mul hden).mp h)

lemma guardQ_zero_den {num c : Nat} : guardQ num 0 c = false := by
  unfold guardQ
  rw [decide_eq_false_iff_not, Nat.cast_zero, div_zero]
  exact not_lt.mpr (by positivity)

/-- Computable characterization of the rational loop guard, used to evaluate
runs on concrete inputs. -/
lemma guardQ_eval (num den c : Nat) :
    guardQ num den c = (decide (0 < den) && decide (c * den < num)) := by
  rcases Nat.eq_zero_or_pos den with h | h
  · subst h
    simp [guardQ_zero_den]
  · have h1 := @guardQ_iff_mul num den c h
    cases hg : guardQ num den c
    · have h2 : ¬ c * den < num := by
        rw [← h1]
        simp [hg]
      simp [h, h2]
    · have h2 : c * den < num := h1.mp hg
      simp [h, h2]

/-- `is_machine_available`'s scan over the listed machine actions: the Python
`for` loop returns `False` at the first action whose status is in the
configured `NOT_AVAILABLE` set, `True` after a complete pass. -/
def availability_scan : List MachineAction → Bool
  | [] => true
  | a :: rest =>
    if a.status ∈ MACHINE_ACTION_STATUS.NOT_AVAILABLE then false
    else availability_scan rest

/-- `is_machine_available(machine_id)`: the argument is the result of the
`get_machine_actions` client call (`none` when that call failed and returned
`None`).  A `None` listing yields `False`; otherwise the scan above decides. -/
def is_machine_available (resp : Option (List MachineAction)) : Bool :=
  match resp with
  | some acts => availability_scan acts
  | none => false

/-- The mutable live-response job state carried on an evidence
(`evidence.live_response`): vendor job id, command index, last observed
status, finished/error flags and the elapsed-poll counter. -/
structure LiveResponse where
  id : Option String
  index : Nat
  status : Option String
  is_finished : Bool
  has_error : Bool
  timeout_counter : Nat
deriving Repr, DecidableEq

/-- Modelled from the spec: `app/lib/Models.py` (`LiveResponse.start`) is not
under `src/`.  Per spec section 3, a LiveResponseJob is created at submission
with the vendor-assigned job id, the file-get command index, the observed
command status, cleared terminal flags and a zeroed elapsed-poll counter.
(The Python call also receives the command's error list and a timestamp,
neither of which the orchestration reads afterwards.) -/
def LiveResponse.start (lr : LiveResponse) (idx : Nat) (commandStatus : String)
    (jobId : String) : LiveResponse :=
  { lr with
    id := some jobId
    index := idx
    status := some commandStatus
    is_finished := false
    has_error := false
    timeout_counter := 0 }

/-- A live-response job state is terminal for the tracker once either flag is
set (finished on `SUCCEEDED`, error on failure/timeout). -/
def LiveResponse.isTerminal (lr : LiveResponse) : Bool :=
  lr.is_finished || lr.has_error

/-- Outcome of one poll of the tracked job: either a state transition
together with the first reported error written to the failure log, or the
`IndexError` the source raises while building that log line
(`machine_action["commands"][0]["errors"][0]`, line 347) when a failure
record carries no first-command error — the subscripts are evaluated before
the `status`/`has_error` assignments, so the exception escapes with the job
state unchanged. -/
inductive PollResult where
  | step (lr : LiveResponse) (captured : Option String)
  | exn
deriving Repr, DecidableEq

/-- One poll of the tracked job (`wait_live_response` loop body, lines
331-355): fetch result `ma?` is the `get_machine_action` response.  Vendor
`SUCCEEDED` finishes the job; a vendor failure status whose record carries a
first-command error sets the error flag, records the status and captures
that first error; a vendor failure status with no reported error raises
(`PollResult.exn`) before any assignment; any other status increments the
elapsed-poll counter; a `None` fetch sets the error flag. -/
def poll_step (ma? : Option MachineAction) (lr : LiveResponse) : PollResult :=
  match ma? with
  | some ma =>
    if ma.status = MACHINE_ACTION_STATUS.SUCCEEDED then
      PollResult.step { lr with status := some ma.status, is_finished := true }
        none
    else if ma.status ∈ MACHINE_ACTION_STATUS.FAIL then
      match ma.commands.head?.bind (fun c => c.errors.head?) with
      | some e =>
        PollResult.step { lr with status := some ma.status, has_error := true }
          (some e)
      | none => PollResult.exn
    else
      PollResult.step { lr with timeout_counter := lr.timeout_counter + 1 }
        none
  | none => PollResult.step { lr with has_error := true } none

/-- Outcome of the `while` loop of `wait_live_response`: the job states
after each completed iteration, the number of `get_machine_action` polls
made, and whether the loop was aborted by the `IndexError` of the
failure-log line (in which case the whole `wait_live_response` call is
aborted and its post-loop timeout code never runs). -/
structure LoopResult where
  trace : List LiveResponse
  polls : Nat
  raised : Bool
deriving Repr, DecidableEq

/-- The `while` loop of `wait_live_response` (lines 323-355).  `polls k` is
the `get_machine_action` response of the `k`-th poll.  When an iteration
sets a terminal flag the loop condition fails at the next check, so the
recursion stops there; a failure record with no reported error raises out
of the loop (line 347) with the job state unchanged. -/
def wait_lr_loop (cfg : MachineActionConfig)
    (polls : Nat → Option MachineAction) (k : Nat) (lr : LiveResponse) :
    LoopResult :=
  if _hc : (guardQ cfg.JOB_TIMEOUT cfg.SLEEP lr.timeout_counter
      && !lr.has_error && !lr.is_finished) = true then
    match polls k with
    | none =>
      { trace := [{ lr with has_error := true }], polls := 1, raised := false }
    | some ma =>
      if ma.status = MACHINE_ACTION_STATUS.SUCCEEDED then
        { trace := [{ lr with status := some ma.status, is_finished := true }],
          polls := 1, raised := false }
      else if ma.status ∈ MACHINE_ACTION_STATUS.FAIL then
        match ma.commands.head?.bind (fun c => c.errors.head?) with
        | some _ =>
          { trace := [{ lr with status := some ma.status, has_error := true }],
            polls := 1, raised := false }
        | none => { trace := [], polls := 1, raised := true }
      else
        let r := wait_lr_loop cfg polls (k + 1)
          { lr with timeout_counter := lr.timeout_counter + 1 }
        { trace :=
            { lr with timeout_counter := lr.timeout_counter + 1 } :: r.trace,
          polls := r.polls + 1, raised := r.raised }
  else { trace := [], polls := 0, raised := false }
termination_by cfg.JOB_TIMEOUT - lr.timeout_counter
decreasing_by
  simp only [Bool.and_eq_true] at _hc
  have := guardQ_counter_lt _hc.1.1
  show cfg.JOB_TIMEOUT - (lr.timeout_counter + 1) <
    cfg.JOB_TIMEOUT - lr.timeout_counter
  omega

/-- Result of the vendor's cancel-machine-action endpoint as observed by
`cancel_machine_action`: a body with an `error` field, a well-formed body, or
a transport/parsing exception. -/
inductive CancelResponse where
  | errorField (msg : String)
  | okay
  | exn
deriving Repr, DecidableEq

/-- `cancel_machine_action` (lines 567-598): returns `False` on an `error`
body or an exception, `True` otherwise.  The caller ignores this result. -/
def cancel_machine_action : CancelResponse → Bool
  | .errorField _ => false
  | .okay => true
  | .exn => false

/-- Outcome of one `wait_live_response` call: the job state when the call
ends (by returning, or by the failure-log `IndexError` escaping), the trace
of states after each mutation, the number of `get_machine_action` polls
made, the number of `cancel_machine_action` calls made, the sleeps performed
(in seconds, as rationals), and whether the call was aborted by the
`IndexError`. -/
structure WaitResult where
  final : LiveResponse
  trace : List LiveResponse
  pollCount : Nat
  cancelCalls : Nat
  sleeps : List ℚ
  raised : Bool
deriving Repr, DecidableEq

/-- `wait_live_response` (lines 311-370): run the poll loop; if it was
aborted by the failure-log `IndexError` the exception escapes and the
post-loop code never runs; otherwise, when the job-timeout budget is
exhausted (`JOB_TIMEOUT / SLEEP <= timeout_counter`), force the error flag
and the `TIMEOUT` status, issue exactly one cancellation (whose result
`cres` is ignored) and sleep once more. -/
def wait_live_response (cfg : MachineActionConfig)
    (polls : Nat → Option MachineAction) (cres : CancelResponse)
    (lr0 : LiveResponse) : WaitResult :=
  let r := wait_lr_loop cfg polls 0 lr0
  let lrL := r.trace.getLastD lr0
  if r.raised then
    { final := lrL
      trace := r.trace
      pollCount := r.polls
      cancelCalls := 0
      sleeps := List.replicate r.polls (cfg.SLEEP : ℚ)
      raised := true }
  else if guardQ cfg.JOB_TIMEOUT cfg.SLEEP lrL.timeout_counter then
    { final := lrL
      trace := r.trace
      pollCount := r.polls
      cancelCalls := 0
      sleeps := List.replicate r.polls (cfg.SLEEP : ℚ)
      raised := false }
  else
    let lrF := { lrL with
      has_error := true
      status := some MACHINE_ACTION_STATUS.TIMEOUT }
    { final := lrF
      trace := r.trace ++ [lrF]
      pollCount := r.polls
      cancelCalls := 1
      sleeps := List.replicate r.polls (cfg.SLEEP : ℚ) ++ [(cfg.SLEEP : ℚ)]
      raised := false }

/-- Result of the live-response submission POST
(`POST /machines/{id}/runliveresponse`) as observed by `run_live_response`:
a body carrying an `error` field, a well-formed body carrying the new action
id, or a transport/parsing exception. -/
inductive SubmitResult where
  | errorField (msg : String)
  | okay (id : String)
  | exn
deriving Repr, DecidableEq

/-- Oracles for one machine's `run_live_response` processing, each indexed by
the number of calls of that kind already made for this machine:
`actionsList` answers `get_machine_actions` (availability checks), `submit`
answers the live-response POST, `enrich` answers the post-submission
`get_machine_action` re-read, `waitPolls n` is the poll oracle handed to the
`n`-th `wait_live_response` run, `cancelResp n` that run's cancellation
response, and `lrResult` answers `get_live_response_result`. -/
structure LiveResponseEnv where
  actionsList : Nat → Option (List MachineAction)
  submit : Nat → SubmitResult
  enrich : Nat → Option MachineAction
  waitPolls : Nat → Nat → Option MachineAction
  cancelResp : Nat → CancelResponse
  lrResult : Nat → Option String

/-- Per-oracle call counters threaded through one machine's processing. -/
structure OracleIx where
  avail : Nat
  submit : Nat
  enrich : Nat
  wait : Nat
  res : Nat
deriving Repr, DecidableEq

/-- Observable side effects of a `run_live_response` fragment: submission
POSTs issued, `wait_live_response` runs entered, cancellations issued, error
log lines, sleeps performed (seconds), and whether the machine-unavailable
timeout error was logged. -/
structure RunStats where
  submits : Nat := 0
  waitRuns : Nat := 0
  cancelCalls : Nat := 0
  errorLogs : Nat := 0
  sleeps : List ℚ := []
  timeoutLogged : Bool := false
deriving Repr, DecidableEq

def RunStats.merge (a b : RunStats) : RunStats :=
  { submits := a.submits + b.submits
    waitRuns := a.waitRuns + b.waitRuns
    cancelCalls := a.cancelCalls + b.cancelCalls
    errorLogs := a.errorLogs + b.errorLogs
    sleeps := a.sleeps ++ b.sleeps
    timeoutLogged := a.timeoutLogged || b.timeoutLogged }

/-- An evidence record as consumed by the orchestration: hashes, source path,
the machines/alerts it was seen on, its live-response job state and the
download url resolved after a successful acquisition. -/
structure Evidence where
  sha256 : String
  sha1 : String
  absolute_path : String
  machines : List String
  alerts : List String
  live_response : LiveResponse
  download_url : Option String
deriving Repr, DecidableEq

/-- A machine as consumed by `run_live_response`: its id, its queue of
evidences to acquire, and the shared availability-timeout counter. -/
structure Machine where
  id : String
  evidences : List Evidence
  timeout_counter : Nat
deriving Repr, DecidableEq

/-- Modelled from the spec: `app/lib/Models.py` (`Machine.has_pending_actions`)
is not under `src/`.  Per spec sections 3 and 4.4 a machine keeps an ordered
collection of *pending* evidence-acquisition requests that the Sequencer
consumes; a request is pending while its live-response job has neither
finished nor failed. -/
def pendingActions (evs : List Evidence) : Bool :=
  evs.any (fun e => !e.live_response.is_finished && !e.live_response.has_error)

/-- `machine.has_pending_actions()` on the machine's evidence queue. -/
def Machine.has_pending_actions (m : Machine) : Bool :=
  pendingActions m.evidences

/-- Body of the inner `for evidence in machine.evidences` loop of
`run_live_response` (lines 217-296) for a single evidence.  The inner
availability check gates submission; a response with an `error` field or an
exception marks the evidence's live-response failed without entering
`wait_live_response`; on a well-formed response the code sleeps 5 seconds,
re-reads the action (`enrich`) to find the `GetFile` command, starts the
job, waits it to completion and, when finished, resolves the download url.
If the wait was aborted by the failure-log `IndexError`, the `except` at
line 286 logs the error and sets the job's error flag.  A failed re-read
(`None`) leaves the evidence untouched (the Python `if json_response is not
None` has no else branch).  When the machine is busy the code only sleeps
`SLEEP / 60` seconds. -/
def process_evidence (cfg : MachineActionConfig) (env : LiveResponseEnv)
    (ix : OracleIx) (ev : Evidence) : Evidence × OracleIx × RunStats :=
  if is_machine_available (env.actionsList ix.avail) then
    let ix1 : OracleIx := { ix with avail := ix.avail + 1 }
    match env.submit ix.submit with
    | SubmitResult.errorField _ =>
      ({ ev with live_response := { ev.live_response with has_error := true } },
        { ix1 with submit := ix.submit + 1 },
        { submits := 1, errorLogs := 1 })
    | SubmitResult.exn =>
      ({ ev with live_response := { ev.live_response with has_error := true } },
        { ix1 with submit := ix.submit + 1 },
        { submits := 1, errorLogs := 1 })
    | SubmitResult.okay _ =>
      let ix2 : OracleIx := { ix1 with submit := ix.submit + 1 }
      match env.enrich ix.enrich with
      | none =>
        (ev, { ix2 with enrich := ix.enrich + 1 },
          { submits := 1, sleeps := [(5 : ℚ)] })
      | some ma =>
        let lr1 := ma.commands.foldl
          (fun lr c =>
            if c.ctype = "GetFile" then lr.start c.index c.commandStatus ma.id
            else lr)
          ev.live_response
        let w := wait_live_response cfg (env.waitPolls ix.wait)
          (env.cancelResp ix.wait) lr1
        let ix3 : OracleIx :=
          { ix2 with enrich := ix.enrich + 1, wait := ix.wait + 1 }
        let st : RunStats :=
          { submits := 1, waitRuns := 1, cancelCalls := w.cancelCalls,
            errorLogs := 0, sleeps := (5 : ℚ) :: w.sleeps }
        if w.raised then
          ({ ev with live_response := { w.final with has_error := true } },
            ix3,
            { submits := 1, waitRuns := 1, cancelCalls := w.cancelCalls,
              errorLogs := 1, sleeps := (5 : ℚ) :: w.sleeps })
        else if w.final.is_finished then
          match env.lrResult ix.res with
          | some url =>
            ({ ev with live_response := w.final, download_url := some url },
              { ix3 with res := ix.res + 1 }, st)
          | none =>
            ({ ev with live_response := w.final },
              { ix3 with res := ix.res + 1 }, st)
        else ({ ev with live_response := w.final }, ix3, st)
  else
    (ev, { ix with avail := ix.avail + 1 },
      { sleeps := [(cfg.SLEEP : ℚ) / 60] })

/-- The inner `for` loop of `run_live_response` over the machine's whole
evidence queue: each evidence is processed in order with the oracle counters
advanced by its predecessors, and processing always continues to the next
evidence regardless of the previous one's outcome. -/
def process_evidences (cfg : MachineActionConfig) (env : LiveResponseEnv) :
    OracleIx → List Evidence → List Evidence × OracleIx × RunStats
  | ix, [] => ([], ix, {})
  | ix, e :: rest =>
    let p := process_evidence cfg env ix e
    let q := process_evidences cfg env p.2.1 rest
    (p.1 :: q.1, q.2.1, p.2.2.merge q.2.2)

/-- One iteration of the outer `while` loop of `run_live_response` (lines
210-302): the outer availability check either admits a pass over the whole
evidence queue (leaving the machine's timeout counter unchanged) or sleeps
`SLEEP` seconds and increments the counter. -/
def run_lr_iteration (cfg : MachineActionConfig) (env : LiveResponseEnv)
    (ix : OracleIx) (c : Nat) (evs : List Evidence) :
    OracleIx × Nat × List Evidence × RunStats :=
  if is_machine_available (env.actionsList ix.avail) then
    let p := process_evidences cfg env { ix with avail := ix.avail + 1 } evs
    (p.2.1, c, p.1, p.2.2)
  else
    ({ ix with avail := ix.avail + 1 }, c + 1, evs,
      { sleeps := [(cfg.SLEEP : ℚ)] })

/-- The outer `while MACHINE_TIMEOUT / SLEEP > timeout_counter and
machine.has_pending_actions()` loop of `run_live_response`.  The Python loop
can run forever (inner-loop unavailability does not consume the budget), so
the translation carries fuel and returns `none` when the fuel runs out with
the loop condition still true. -/
def run_lr_machine_loop (cfg : MachineActionConfig) (env : LiveResponseEnv) :
    Nat → OracleIx → Nat → List Evidence →
      Option (OracleIx × Nat × List Evidence × RunStats)
  | fuel, ix, c, evs =>
    if guardQ cfg.MACHINE_TIMEOUT cfg.SLEEP c && pendingActions evs then
      match fuel with
      | 0 => none
      | fuel + 1 =>
        let it := run_lr_iteration cfg env ix c evs
        match run_lr_machine_loop cfg env fuel it.1 it.2.1 it.2.2.1 with
        | none => none
        | some r => some (r.1, r.2.1, r.2.2.1, it.2.2.2.merge r.2.2.2)
    else some (ix, c, evs, {})

/-- Outcome of `run_live_response` for one machine. -/
structure MachineRunResult where
  machine : Machine
  stats : RunStats
  completed : Bool
deriving Repr, DecidableEq

/-- `run_live_response` restricted to one machine: run the outer loop from
the machine's current timeout counter, then (lines 304-307) log the
machine-unavailable timeout error exactly when pending evidence remains. -/
def run_lr_one_machine (cfg : MachineActionConfig) (env : LiveResponseEnv)
    (fuel : Nat) (m : Machine) : MachineRunResult :=
  match run_lr_machine_loop cfg env fuel
      { avail := 0, submit := 0, enrich := 0, wait := 0, res := 0 }
      m.timeout_counter m.evidences with
  | some r =>
    { machine := { m with evidences := r.2.2.1, timeout_counter := r.2.1 }
      stats := { r.2.2.2 with timeoutLogged := pendingActions r.2.2.1 }
      completed := true }
  | none => { machine := m, stats := {}, completed := false }

/-- `run_live_response(machines)` (lines 194-309): each machine is processed
independently with its own oracles. -/
def run_live_response (cfg : MachineActionConfig)
    (envOf : String → LiveResponseEnv) (fuel : Nat)
    (machines : List Machine) : List MachineRunResult :=
  machines.map (fun m => run_lr_one_machine cfg (envOf m.id) fuel m)

/-- Oracles for one machine's single-shot containment action: availability
listings in call order and the (single) submission response. -/
structure ContainmentEnv where
  actionsList : Nat → Option (List MachineAction)
  submit : SubmitResult

/-- Observable outcome of one machine's containment-action loop
(`isolate_machine` / `run_antivirus_scan` / `collect_investigation_package` /
`stop_and_quarantine_file`, per machine): availability checks made,
submission POSTs issued, whether the submission response was well-formed,
whether a submission error was logged, whether the machine-unavailable
timeout was logged, the number of status fetches of the submitted action
after submission, and the sleeps performed. -/
structure ContainmentResult where
  availChecks : Nat := 0
  submits : Nat := 0
  okSubmit : Bool := false
  errorLogged : Bool := false
  timeoutLogged : Bool := false
  terminalWaitPolls : Nat := 0
  sleeps : List ℚ := []
deriving Repr, DecidableEq

/-- Whether a submission response is well-formed (no `error` field, no
exception). -/
def submitOk : SubmitResult → Bool
  | SubmitResult.okay _ => true
  | SubmitResult.errorField _ => false
  | SubmitResult.exn => false

/-- The shared `while MACHINE_TIMEOUT / SLEEP > timeout_count and
is_job_pending` loop of the four containment actions (e.g. lines 684-727 for
isolation), including the post-loop timeout check.  On an available machine
the action is submitted once (success or error both clear `is_job_pending`),
the loop exits, and the post-loop `else` branch sleeps `SLEEP` once as a
cooldown; the source performs no `get_machine_action` fetch of the submitted
action afterwards, so `terminalWaitPolls` is identically 0.  On a busy
machine the counter is incremented after a `SLEEP`-second sleep.  If the
guard fails before any submission, the timeout error is logged and no sleep
is performed. -/
def containment_loop (cfg : MachineActionConfig) (env : ContainmentEnv)
    (t : Nat) (ix : Nat) : ContainmentResult :=
  if _hg : guardQ cfg.MACHINE_TIMEOUT cfg.SLEEP t = true then
    if is_machine_available (env.actionsList ix) then
      { availChecks := 1, submits := 1, okSubmit := submitOk env.submit,
        errorLogged := !submitOk env.submit,
        sleeps := [(cfg.SLEEP : ℚ)] }
    else
      let r := containment_loop cfg env (t + 1) (ix + 1)
      { r with
        availChecks := r.availChecks + 1
        sleeps := (cfg.SLEEP : ℚ) :: r.sleeps }
  else { timeoutLogged := true }
termination_by cfg.MACHINE_TIMEOUT - t
decreasing_by
  have := guardQ_counter_lt _hg
  omega

/-- One machine's containment action, started with a fresh
`timeout_count = 0` as in the source. -/
def containment_one (cfg : MachineActionConfig) (env : ContainmentEnv) :
    ContainmentResult :=
  containment_loop cfg env 0 0

/-- `isolate_machine(evidence)` (lines 658-727): one independent
availability/submit loop per machine in `evidence.machines`. -/
def isolate_machine (cfg : MachineActionConfig) (ev : Evidence)
    (envOf : String → ContainmentEnv) : List ContainmentResult :=
  ev.machines.map (fun mid => containment_one cfg (envOf mid))

/-- `run_antivirus_scan(evidence)` (lines 729-797): identical control flow to
isolation with a different endpoint/payload. -/
def run_antivirus_scan (cfg : MachineActionConfig) (ev : Evidence)
    (envOf : String → ContainmentEnv) : List ContainmentResult :=
  ev.machines.map (fun mid => containment_one cfg (envOf mid))

/-- `collect_investigation_package(evidence)` (lines 799-868): identical
control flow to isolation with a different endpoint/payload. -/
def collect_investigation_package (cfg : MachineActionConfig) (ev : Evidence)
    (envOf : String → ContainmentEnv) : List ContainmentResult :=
  ev.machines.map (fun mid => containment_one cfg (envOf mid))

/-- `stop_and_quarantine_file(evidence)` (lines 870-943): identical control
flow to isolation with a different endpoint/payload. -/
def stop_and_quarantine_file (cfg : MachineActionConfig) (ev : Evidence)
    (envOf : String → ContainmentEnv) : List ContainmentResult :=
  ev.machines.map (fun mid => containment_one cfg (envOf mid))

/-- The four containment action kinds, in the planner's source order. -/
inductive ActionKind where
  | investigationPackage
  | antivirusScan
  | stopAndQuarantine
  | isolation
deriving Repr, DecidableEq

/-- The policy knobs the planner reads for each kind. -/
def kindConfig (cfg : MachineActionConfig) : ActionKind → ActionKindConfig
  | ActionKind.investigationPackage => cfg.COLLECT_INVESTIGATION_PACKAGE
  | ActionKind.antivirusScan => cfg.ANTI_VIRUS_SCAN
  | ActionKind.stopAndQuarantine => cfg.STOP_AND_QUARANTINE_FILE
  | ActionKind.isolation => cfg.ISOLATION

/-- Position of each kind in the planner's fixed evaluation order. -/
def ActionKind.priority : ActionKind → Nat
  | ActionKind.investigationPackage => 0
  | ActionKind.antivirusScan => 1
  | ActionKind.stopAndQuarantine => 2
  | ActionKind.isolation => 3

/-- `run_automated_machine_actions(sample_data, evidence)` (lines 945-971):
four guarded invocations in source order — investigation package, antivirus
scan, stop-and-quarantine, isolation — each fired exactly when its `ACTIVE`
flag is set and the sample verdict is in its configured verdict list.
Returns the invoked kinds, in order, with their per-machine results. -/
def run_automated_machine_actions (cfg : MachineActionConfig)
    (sample_verdict : String) (ev : Evidence)
    (envOf : ActionKind → String → ContainmentEnv) :
    List (ActionKind × List ContainmentResult) :=
  (if cfg.COLLECT_INVESTIGATION_PACKAGE.ACTIVE = true ∧
      sample_verdict ∈ cfg.COLLECT_INVESTIGATION_PACKAGE.VERDICTS then
    [(ActionKind.investigationPackage,
      collect_investigation_package cfg ev
        (envOf ActionKind.investigationPackage))]
  else []) ++
  (if cfg.ANTI_VIRUS_SCAN.ACTIVE = true ∧
      sample_verdict ∈ cfg.ANTI_VIRUS_SCAN.VERDICTS then
    [(ActionKind.antivirusScan,
      run_antivirus_scan cfg ev (envOf ActionKind.antivirusScan))]
  else []) ++
  (if cfg.STOP_AND_QUARANTINE_FILE.ACTIVE = true ∧
      sample_verdict ∈ cfg.STOP_AND_QUARANTINE_FILE.VERDICTS then
    [(ActionKind.stopAndQuarantine,
      stop_and_quarantine_file cfg ev (envOf ActionKind.stopAndQuarantine))]
  else []) ++
  (if cfg.ISOLATION.ACTIVE = true ∧
      sample_verdict ∈ cfg.ISOLATION.VERDICTS then
    [(ActionKind.isolation, isolate_machine cfg ev (envOf ActionKind.isolation))]
  else [])

lemma wait_lr_loop_nil {cfg : MachineActionConfig}
    {polls : Nat → Option MachineAction} {k : Nat} {lr : LiveResponse}
    (h : (guardQ cfg.JOB_TIMEOUT cfg.SLEEP lr.timeout_counter
      && !lr.has_error && !lr.is_finished) = false) :
    wait_lr_loop cfg polls k lr =
      { trace := [], polls := 0, raised := false } := by
  rw [wait_lr_loop]
  simp [h]

lemma wait_lr_loop_pos {cfg : MachineActionConfig}
    {polls : Nat → Option MachineAction} {k : Nat} {lr : LiveResponse}
    (h : (guardQ cfg.JOB_TIMEOUT cfg.SLEEP lr.timeout_counter
      && !lr.has_error && !lr.is_finished) = true) :
    wait_lr_loop cfg polls k lr =
      match polls k with
      | none =>
        { trace := [{ lr with has_error := true }], polls := 1,
          raised := false }
      | some ma =>
        if ma.status = MACHINE_ACTION_STATUS.SUCCEEDED then
          { trace := [{ lr with status := some ma.status, is_finished := true }],
            polls := 1, raised := false }
        else if ma.status ∈ MACHINE_ACTION_STATUS.FAIL then
          match ma.commands.head?.bind (fun c => c.errors.head?) with
          | some _ =>
            { trace := [{ lr with status := some ma.status, has_error := true }],
              polls := 1, raised := false }
          | none => { trace := [], polls := 1, raised := true }
        else
          let r := wait_lr_loop cfg polls (k + 1)
            { lr with timeout_counter := lr.timeout_counter + 1 }
          { trace :=
              { lr with timeout_counter := lr.timeout_counter + 1 } :: r.trace,
            polls := r.polls + 1, raised := r.raised } := by
  conv_lhs => rw [wait_lr_loop]
  simp [h]

lemma availability_scan_true_iff (l : List MachineAction) :
    availability_scan l = true ↔
      ∀ a ∈ l, a.status ∉ MACHINE_ACTION_STATUS.NOT_AVAILABLE := by
  induction l with
  | nil => simp [availability_scan]
  | cons a rest ih =>
    by_cases hbusy : a.status ∈ MACHINE_ACTION_STATUS.NOT_AVAILABLE
    · simp [availability_scan, hbusy]
    · simp [availability_scan, hbusy, ih]

/-- C1: `is_machine_available` returns `false` when the listing client call
fails (`None`), returns `false` whenever some listed action has a status in
the not-available set, and returns `true` exactly when the listing succeeded
and every listed action's status is outside the not-available set. -/
theorem is_machine_available_spec (resp : Option (List MachineAction)) :
    (resp = none → is_machine_available resp = false) ∧
    (∀ acts a, resp = some acts → a ∈ acts →
      a.status ∈ MACHINE_ACTION_STATUS.NOT_AVAILABLE →
      is_machine_available resp = false) ∧
    (is_machine_available resp = true ↔
      ∃ acts, resp = some acts ∧
        ∀ a ∈ acts, a.status ∉ MACHINE_ACTION_STATUS.NOT_AVAILABLE) := by
  refine ⟨?_, ?_, ?_⟩
  · intro h
    subst h
    rfl
  · intro acts a hresp hmem hbusy
    subst hresp
    show availability_scan acts = false
    cases hscan : availability_scan acts with
    | false => rfl
    | true =>
      exact absurd ((availability_scan_true_iff acts).mp hscan a hmem) (by
        simp [hbusy])
  · cases resp with
    | none => simp [is_machine_available]
    | some acts => simp [is_machine_available, availability_scan_true_iff]

/-- C1 witness: a machine with an `InProgress` action is reported busy, a
failed listing is reported busy, and a machine whose only action has
terminal status `Succeeded` is reported available. -/
theorem is_machine_available_spec_inst :
    is_machine_available
      (some [{ id := "m1", status := "InProgress", commands := [] }]) = false ∧
    is_machine_available none = false ∧
    is_machine_available
      (some [{ id := "m1", status := "Succeeded", commands := [] }]) = true := by
  refine ⟨?_, ?_, ?_⟩
  · exact (is_machine_available_spec _).2.1 _
      { id := "m1", status := "InProgress", commands := [] }
      rfl (by simp) (by simp [MACHINE_ACTION_STATUS.NOT_AVAILABLE])
  · exact (is_machine_available_spec none).1 rfl
  · exact (is_machine_available_spec _).2.2.mpr
      ⟨_, rfl, by simp [MACHINE_ACTION_STATUS.NOT_AVAILABLE]⟩

/-- C3 (amended): one poll of a tracked live-response job.  A fetched record
with the vendor succeeded code finishes the job; a record with a status in
the vendor failure set whose first command carries a reported error sets the
error flag, records the status and captures that first error; a failure
record with no first-command error makes the poll raise the failure-log
`IndexError` (the log subscripts `commands[0][errors][0]` run before the
`status`/`has_error` assignments), so no transition occurs and the exception
escapes the tracker; any other status only increments the elapsed-poll
counter; a failed fetch (`None`) sets the error flag instead of continuing
to poll. -/
theorem poll_step_transitions (ma : MachineAction) (lr : LiveResponse) :
    (ma.status = MACHINE_ACTION_STATUS.SUCCEEDED →
      poll_step (some ma) lr =
        PollResult.step { lr with status := some ma.status, is_finished := true }
          none) ∧
    (∀ e, ma.status ≠ MACHINE_ACTION_STATUS.SUCCEEDED →
      ma.status ∈ MACHINE_ACTION_STATUS.FAIL →
      ma.commands.head?.bind (fun c => c.errors.head?) = some e →
      poll_step (some ma) lr =
        PollResult.step { lr with status := some ma.status, has_error := true }
          (some e)) ∧
    (ma.status ≠ MACHINE_ACTION_STATUS.SUCCEEDED →
      ma.status ∈ MACHINE_ACTION_STATUS.FAIL →
      ma.commands.head?.bind (fun c => c.errors.head?) = none →
      poll_step (some ma) lr = PollResult.exn) ∧
    (ma.status ≠ MACHINE_ACTION_STATUS.SUCCEEDED →
      ma.status ∉ MACHINE_ACTION_STATUS.FAIL →
      poll_step (some ma) lr =
        PollResult.step { lr with timeout_counter := lr.timeout_counter + 1 }
          none) ∧
    poll_step none lr = PollResult.step { lr with has_error := true } none := by
  refine ⟨?_, ?_, ?_, ?_, rfl⟩
  · intro hs
    simp [poll_step, hs]
  · intro e hns hf he
    simp [poll_step, hns, hf, he]
  · intro hns hf he
    simp [poll_step, hns, hf, he]
  · intro hns hnf
    simp [poll_step, hns, hnf]

/-- C3 counterexample: a record whose status is in the vendor failure set
but whose command list is empty does not transition the job to failed — the
failure-log line `machine_action["commands"][0]["errors"][0]` raises an
`IndexError` before the `status`/`has_error` assignments run, so the poll
aborts with the job state unchanged instead of capturing a first error. -/
theorem poll_step_empty_fail_cex :
    "Cancelled" ∈ MACHINE_ACTION_STATUS.FAIL ∧
    poll_step (some { id := "a1", status := "Cancelled", commands := [] })
        { id := some "a1", index := 0, status := none, is_finished := false,
          has_error := false, timeout_counter := 0 } = PollResult.exn := by
  exact ⟨by decide, by decide⟩

/-- C3 witness: the five poll outcomes evaluated on concrete records — a
`Succeeded` record finishes the job, a `Failed` record with a reported error
captures `"boom"`, a `Cancelled` record with no commands raises the
failure-log `IndexError`, an `InProgress` record only bumps the counter, and
a `None` fetch sets the error flag. -/
theorem poll_step_transitions_inst :
    poll_step (some { id := "a1", status := "Succeeded", commands := [] })
        { id := some "a1", index := 0, status := none, is_finished := false,
          has_error := false, timeout_counter := 0 } =
      PollResult.step
        { id := some "a1", index := 0, status := some "Succeeded",
          is_finished := true, has_error := false, timeout_counter := 0 }
        none ∧
    poll_step
        (some { id := "a1", status := "Failed",
                commands := [{ index := 0, ctype := "GetFile",
                               errors := ["boom"],
                               commandStatus := "Failed" }] })
        { id := some "a1", index := 0, status := none, is_finished := false,
          has_error := false, timeout_counter := 0 } =
      PollResult.step
        { id := some "a1", index := 0, status := some "Failed",
          is_finished := false, has_error := true, timeout_counter := 0 }
        (some "boom") ∧
    poll_step (some { id := "a1", status := "Cancelled", commands := [] })
        { id := some "a1", index := 0, status := none, is_finished := false,
          has_error := false, timeout_counter := 0 } = PollResult.exn ∧
    poll_step (some { id := "a1", status := "InProgress", commands := [] })
        { id := some "a1", index := 0, status := none, is_finished := false,
          has_error := false, timeout_counter := 0 } =
      PollResult.step
        { id := some "a1", index := 0, status := none, is_finished := false,
          has_error := false, timeout_counter := 1 }
        none ∧
    poll_step none
        { id := some "a1", index := 0, status := none, is_finished := false,
          has_error := false, timeout_counter := 0 } =
      PollResult.step
        { id := some "a1", index := 0, status := none, is_finished := false,
          has_error := true, timeout_counter := 0 }
        none := by
  refine ⟨?_, ?_, ?_, ?_, ?_⟩
  · exact (poll_step_transitions _ _).1 rfl
  · exact (poll_step_transitions _ _).2.1 "boom" (by decide) (by decide) rfl
  · exact (poll_step_transitions _ _).2.2.1 (by decide) (by decide) rfl
  · exact (poll_step_transitions _ _).2.2.2.1 (by decide) (by decide)
  · exact (poll_step_transitions
      { id := "a1", status := "InProgress", commands := [] } _).2.2.2.2

lemma ceilDivNat_le_of_guardQ_false {num den c : Nat} (hden : 0 < den)
    (h : guardQ num den c = false) : ceilDivNat num den ≤ c := by
  have hmul : ¬ c * den < num := by
    intro hlt
    rw [(guardQ_iff_mul hden).mpr hlt] at h
    cases h
  unfold ceilDivNat
  rw [Nat.div_le_iff_le_mul_add_pred hden, Nat.mul_comm den c]
  omega

lemma wait_lr_loop_length_le {cfg : MachineActionConfig}
    {polls : Nat → Option MachineAction} (hS : 0 < cfg.SLEEP) :
    ∀ n k (lr : LiveResponse), cfg.JOB_TIMEOUT - lr.timeout_counter ≤ n →
      (wait_lr_loop cfg polls k lr).polls ≤
        ceilDivNat cfg.JOB_TIMEOUT cfg.SLEEP - lr.timeout_counter := by
  intro n
  induction n with
  | zero =>
    intro k lr hn
    have hguard : guardQ cfg.JOB_TIMEOUT cfg.SLEEP lr.timeout_counter = false := by
      cases hg : guardQ cfg.JOB_TIMEOUT cfg.SLEEP lr.timeout_counter with
      | false => rfl
      | true => exact absurd (guardQ_counter_lt hg) (by omega)
    rw [wait_lr_loop_nil (by simp [hguard])]
    simp
  | succ n ih =>
    intro k lr hn
    by_cases hc : (guardQ cfg.JOB_TIMEOUT cfg.SLEEP lr.timeout_counter
        && !lr.has_error && !lr.is_finished) = true
    · have hg : guardQ cfg.JOB_TIMEOUT cfg.SLEEP lr.timeout_counter = true := by
        simp only [Bool.and_eq_true] at hc
        exact hc.1.1
      have hceil := guardQ_lt_ceil hS hg
      have hJ := guardQ_counter_lt hg
      rw [wait_lr_loop_pos hc]
      cases hpk : polls k with
      | none => simp; omega
      | some ma =>
        by_cases hs : ma.status = MACHINE_ACTION_STATUS.SUCCEEDED
        · simp [hs]
          omega
        · by_cases hf : ma.status ∈ MACHINE_ACTION_STATUS.FAIL
          · cases hca : ma.commands.head?.bind (fun c => c.errors.head?) with
            | none =>
              simp [hs, hf, hca]
              omega
            | some e =>
              simp [hs, hf, hca]
              omega
          · have hrec := ih (k + 1)
              { lr with timeout_counter := lr.timeout_counter + 1 }
              (by simp; omega)
            simp only at hrec
            simp [hs, hf]
            omega
    · rw [wait_lr_loop_nil (Bool.eq_false_iff.mpr hc)]
      simp

lemma wait_lr_loop_stuck {cfg : MachineActionConfig}
    {polls : Nat → Option MachineAction} (hS : 0 < cfg.SLEEP)
    (hp : ∀ k, ∃ ma, polls k = some ma ∧
      ma.status ≠ MACHINE_ACTION_STATUS.SUCCEEDED ∧
      ma.status ∉ MACHINE_ACTION_STATUS.FAIL) :
    ∀ n k (lr : LiveResponse), cfg.JOB_TIMEOUT - lr.timeout_counter ≤ n →
      lr.has_error = false → lr.is_finished = false →
      (wait_lr_loop cfg polls k lr).polls =
        ceilDivNat cfg.JOB_TIMEOUT cfg.SLEEP - lr.timeout_counter ∧
      (wait_lr_loop cfg polls k lr).trace.getLastD lr =
        { lr with
          timeout_counter :=
            max lr.timeout_counter (ceilDivNat cfg.JOB_TIMEOUT cfg.SLEEP) } ∧
      (wait_lr_loop cfg polls k lr).raised = false := by
  intro n
  induction n with
  | zero =>
    intro k lr hn he hf
    have hguard : guardQ cfg.JOB_TIMEOUT cfg.SLEEP lr.timeout_counter = false := by
      cases hg : guardQ cfg.JOB_TIMEOUT cfg.SLEEP lr.timeout_counter with
      | false => rfl
      | true => exact absurd (guardQ_counter_lt hg) (by omega)
    have hle := ceilDivNat_le_of_guardQ_false hS hguard
    rw [wait_lr_loop_nil (by simp [hguard])]
    refine ⟨by simp; omega, ?_, rfl⟩
    show ([] : List LiveResponse).getLastD lr = _
    simp only [List.getLastD]
    rw [Nat.max_eq_left hle]
  | succ n ih =>
    intro k lr hn he hf
    by_cases hg : guardQ cfg.JOB_TIMEOUT cfg.SLEEP lr.timeout_counter = true
    · have hc : (guardQ cfg.JOB_TIMEOUT cfg.SLEEP lr.timeout_counter
          && !lr.has_error && !lr.is_finished) = true := by
        simp [hg, he, hf]
      have hceil := guardQ_lt_ceil hS hg
      have hJ := guardQ_counter_lt hg
      obtain ⟨ma, hma, hns, hnf⟩ := hp k
      rw [wait_lr_loop_pos hc, hma]
      simp only [if_neg hns, if_neg hnf]
      have hrec := ih (k + 1)
        { lr with timeout_counter := lr.timeout_counter + 1 }
        (by simp; omega) (by simp [he]) (by simp [hf])
      simp only at hrec
      refine ⟨?_, ?_, ?_⟩
      · rw [hrec.1]
        omega
      · rw [List.getLastD_cons, hrec.2.1]
        have h1 : max (lr.timeout_counter + 1)
            (ceilDivNat cfg.JOB_TIMEOUT cfg.SLEEP) =
            ceilDivNat cfg.JOB_TIMEOUT cfg.SLEEP := Nat.max_eq_right (by omega)
        have h2 : max lr.timeout_counter
            (ceilDivNat cfg.JOB_TIMEOUT cfg.SLEEP) =
            ceilDivNat cfg.JOB_TIMEOUT cfg.SLEEP := Nat.max_eq_right (by omega)
        rw [h1, h2]
      · exact hrec.2.2
    · have hguard : guardQ cfg.JOB_TIMEOUT cfg.SLEEP lr.timeout_counter = false :=
        Bool.eq_false_iff.mpr hg
      have hle := ceilDivNat_le_of_guardQ_false hS hguard
      rw [wait_lr_loop_nil (by simp [hguard])]
      refine ⟨by simp; omega, ?_, rfl⟩
      show ([] : List LiveResponse).getLastD lr = _
      simp only [List.getLastD]
      rw [Nat.max_eq_left hle]

lemma wait_lr_loop_raised_guard {cfg : MachineActionConfig}
    {polls : Nat → Option MachineAction} :
    ∀ n k (lr : LiveResponse), cfg.JOB_TIMEOUT - lr.timeout_counter ≤ n →
      (wait_lr_loop cfg polls k lr).raised = true →
      guardQ cfg.JOB_TIMEOUT cfg.SLEEP
        ((wait_lr_loop cfg polls k lr).trace.getLastD lr).timeout_counter =
        true := by
  intro n
  induction n with
  | zero =>
    intro k lr hn hr
    have hguard : guardQ cfg.JOB_TIMEOUT cfg.SLEEP lr.timeout_counter = false := by
      cases hg : guardQ cfg.JOB_TIMEOUT cfg.SLEEP lr.timeout_counter with
      | false => rfl
      | true => exact absurd (guardQ_counter_lt hg) (by omega)
    rw [wait_lr_loop_nil (by simp [hguard])] at hr
    simp at hr
  | succ n ih =>
    intro k lr hn hr
    by_cases hc : (guardQ cfg.JOB_TIMEOUT cfg.SLEEP lr.timeout_counter
        && !lr.has_error && !lr.is_finished) = true
    · have hg : guardQ cfg.JOB_TIMEOUT cfg.SLEEP lr.timeout_counter = true := by
        simp only [Bool.and_eq_true] at hc
        exact hc.1.1
      have hJ := guardQ_counter_lt hg
      rw [wait_lr_loop_pos hc] at hr ⊢
      cases hpk : polls k with
      | none =>
        rw [hpk] at hr
        simp at hr
      | some ma =>
        rw [hpk] at hr
        by_cases hs : ma.status = MACHINE_ACTION_STATUS.SUCCEEDED
        · simp [hs] at hr
        · by_cases hfl : ma.status ∈ MACHINE_ACTION_STATUS.FAIL
          · cases hca : ma.commands.head?.bind (fun c => c.errors.head?) with
            | none =>
              simp [hs, hfl, hca]
              exact hg
            | some e =>
              simp [hs, hfl, hca] at hr
          · simp [hs, hfl, List.getLastD_cons,
              -List.getLastD_eq_getLast?] at hr ⊢
            exact ih (k + 1)
              { lr with timeout_counter := lr.timeout_counter + 1 }
              (by simp; omega) hr
    · rw [wait_lr_loop_nil (Bool.eq_false_iff.mpr hc)] at hr
      simp at hr

lemma wait_pollCount_eq {cfg : MachineActionConfig}
    {polls : Nat → Option MachineAction} {cres : CancelResponse}
    {lr0 : LiveResponse} :
    (wait_live_response cfg polls cres lr0).pollCount =
      (wait_lr_loop cfg polls 0 lr0).polls := by
  unfold wait_live_response
  dsimp only
  split
  · rfl
  · split <;> rfl

/-- C2 counterexample: with `JOB_TIMEOUT = 25` and `SLEEP = 10` and a job
that stays `InProgress`, `wait_live_response` performs 3 polls, exceeding
`floor(JOB_TIMEOUT / POLL_INTERVAL) = 25 / 10 = 2`: the Python guard
`JOB_TIMEOUT / SLEEP > counter` uses true (float) division, so the poll
budget is the ceiling, not the floor, when `SLEEP` does not divide
`JOB_TIMEOUT`. -/
theorem wait_poll_budget_floor_cex :
    ¬((wait_live_response
        { MACHINE_TIMEOUT := 60, JOB_TIMEOUT := 25, SLEEP := 10,
          ISOLATION := ⟨false, []⟩, ANTI_VIRUS_SCAN := ⟨false, []⟩,
          COLLECT_INVESTIGATION_PACKAGE := ⟨false, []⟩,
          STOP_AND_QUARANTINE_FILE := ⟨false, []⟩ }
        (fun _ => some { id := "a1", status := "InProgress", commands := [] })
        CancelResponse.okay
        { id := some "a1", index := 0, status := none, is_finished := false,
          has_error := false, timeout_counter := 0 }).pollCount ≤ 25 / 10) := by
  have h3 : (wait_live_response
      { MACHINE_TIMEOUT := 60, JOB_TIMEOUT := 25, SLEEP := 10,
        ISOLATION := ⟨false, []⟩, ANTI_VIRUS_SCAN := ⟨false, []⟩,
        COLLECT_INVESTIGATION_PACKAGE := ⟨false, []⟩,
        STOP_AND_QUARANTINE_FILE := ⟨false, []⟩ }
      (fun _ => some { id := "a1", status := "InProgress", commands := [] })
      CancelResponse.okay
      { id := some "a1", index := 0, status := none, is_finished := false,
        has_error := false, timeout_counter := 0 }).pollCount = 3 := by
    simp [wait_live_response, wait_lr_loop, guardQ_eval,
      MACHINE_ACTION_STATUS.SUCCEEDED, MACHINE_ACTION_STATUS.FAIL]
  rw [h3]
  decide

/-- C2 (amended): the tracker performs at most
`ceil(JOB_TIMEOUT / POLL_INTERVAL)` polls (equal to the claimed floor
whenever `POLL_INTERVAL` divides `JOB_TIMEOUT`); if the polled job reaches
neither the succeeded nor a failure status, the poll budget is exhausted,
the job's status is set to `TIMED_OUT` with the error flag, exactly one
cancellation call is issued, and the outcome does not depend on the
cancellation result. -/
theorem wait_poll_budget_ceil (cfg : MachineActionConfig)
    (polls : Nat → Option MachineAction) (cres : CancelResponse)
    (lr0 : LiveResponse) (hS : 0 < cfg.SLEEP)
    (h0 : lr0.timeout_counter = 0) (he : lr0.has_error = false)
    (hf : lr0.is_finished = false) :
    (wait_live_response cfg polls cres lr0).pollCount ≤
      ceilDivNat cfg.JOB_TIMEOUT cfg.SLEEP ∧
    ((∀ k, ∃ ma, polls k = some ma ∧
        ma.status ≠ MACHINE_ACTION_STATUS.SUCCEEDED ∧
        ma.status ∉ MACHINE_ACTION_STATUS.FAIL) →
      (wait_live_response cfg polls cres lr0).final.status =
        some MACHINE_ACTION_STATUS.TIMEOUT ∧
      (wait_live_response cfg polls cres lr0).final.has_error = true ∧
      (wait_live_response cfg polls cres lr0).cancelCalls = 1 ∧
      (wait_live_response cfg polls cres lr0).pollCount =
        ceilDivNat cfg.JOB_TIMEOUT cfg.SLEEP) ∧
    (∀ cres2, wait_live_response cfg polls cres lr0 =
      wait_live_response cfg polls cres2 lr0) := by
  refine ⟨?_, ?_, fun cres2 => rfl⟩
  · rw [wait_pollCount_eq]
    have := @wait_lr_loop_length_le cfg polls hS
      (cfg.JOB_TIMEOUT - lr0.timeout_counter) 0 lr0 (le_refl _)
    omega
  · intro hp
    have hstuck := wait_lr_loop_stuck hS hp
      (cfg.JOB_TIMEOUT - lr0.timeout_counter) 0 lr0 (le_refl _) he hf
    have hlast : (wait_lr_loop cfg polls 0 lr0).trace.getLastD lr0 =
        { lr0 with timeout_counter := ceilDivNat cfg.JOB_TIMEOUT cfg.SLEEP } := by
      rw [hstuck.2.1, h0]
      simp
    have hguard : guardQ cfg.JOB_TIMEOUT cfg.SLEEP
        ((wait_lr_loop cfg polls 0 lr0).trace.getLastD lr0).timeout_counter =
        false := by
      rw [hlast]
      exact guardQ_false_of_ceil hS (le_refl _)
    unfold wait_live_response
    simp only [hstuck.2.2, hguard, Bool.false_eq_true, if_false, ite_false]
    refine ⟨trivial, trivial, trivial, ?_⟩
    rw [hstuck.1, h0]
    simp

/-- C2 witness: with `JOB_TIMEOUT = 30`, `SLEEP = 10` and an always
`InProgress` job, the tracker makes exactly `ceil(30/10) = 3` polls, forces
`TimeOut` with the error flag, and issues exactly one cancellation. -/
theorem wait_poll_budget_ceil_inst :
    (wait_live_response
        { MACHINE_TIMEOUT := 60, JOB_TIMEOUT := 30, SLEEP := 10,
          ISOLATION := ⟨false, []⟩, ANTI_VIRUS_SCAN := ⟨false, []⟩,
          COLLECT_INVESTIGATION_PACKAGE := ⟨false, []⟩,
          STOP_AND_QUARANTINE_FILE := ⟨false, []⟩ }
        (fun _ => some { id := "a1", status := "InProgress", commands := [] })
        CancelResponse.okay
        { id := some "a1", index := 0, status := none, is_finished := false,
          has_error := false, timeout_counter := 0 }).final.status =
      some MACHINE_ACTION_STATUS.TIMEOUT ∧
    (wait_live_response
        { MACHINE_TIMEOUT := 60, JOB_TIMEOUT := 30, SLEEP := 10,
          ISOLATION := ⟨false, []⟩, ANTI_VIRUS_SCAN := ⟨false, []⟩,
          COLLECT_INVESTIGATION_PACKAGE := ⟨false, []⟩,
          STOP_AND_QUARANTINE_FILE := ⟨false, []⟩ }
        (fun _ => some { id := "a1", status := "InProgress", commands := [] })
        CancelResponse.okay
        { id := some "a1", index := 0, status := none, is_finished := false,
          has_error := false, timeout_counter := 0 }).cancelCalls = 1 ∧
    (wait_live_response
        { MACHINE_TIMEOUT := 60, JOB_TIMEOUT := 30, SLEEP := 10,
          ISOLATION := ⟨false, []⟩, ANTI_VIRUS_SCAN := ⟨false, []⟩,
          COLLECT_INVESTIGATION_PACKAGE := ⟨false, []⟩,
          STOP_AND_QUARANTINE_FILE := ⟨false, []⟩ }
        (fun _ => some { id := "a1", status := "InProgress", commands := [] })
        CancelResponse.okay
        { id := some "a1", index := 0, status := none, is_finished := false,
          has_error := false, timeout_counter := 0 }).pollCount =
      ceilDivNat 30 10 := by
  have h := wait_poll_budget_ceil
    { MACHINE_TIMEOUT := 60, JOB_TIMEOUT := 30, SLEEP := 10,
      ISOLATION := ⟨false, []⟩, ANTI_VIRUS_SCAN := ⟨false, []⟩,
      COLLECT_INVESTIGATION_PACKAGE := ⟨false, []⟩,
      STOP_AND_QUARANTINE_FILE := ⟨false, []⟩ }
    (fun _ => some { id := "a1", status := "InProgress", commands := [] })
    CancelResponse.okay
    { id := some "a1", index := 0, status := none, is_finished := false,
      has_error := false, timeout_counter := 0 }
    (by decide) rfl rfl rfl
  have h2 := h.2.1 (fun k =>
    ⟨{ id := "a1", status := "InProgress", commands := [] }, rfl,
      by decide, by decide⟩)
  exact ⟨h2.1, h2.2.2.1, h2.2.2.2⟩

lemma wait_lr_loop_dropLast_nonterminal {cfg : MachineActionConfig}
    {polls : Nat → Option MachineAction} :
    ∀ n k (lr : LiveResponse), cfg.JOB_TIMEOUT - lr.timeout_counter ≤ n →
      lr.has_error = false → lr.is_finished = false →
      ∀ x ∈ (wait_lr_loop cfg polls k lr).trace.dropLast,
        x.isTerminal = false := by
  intro n
  induction n with
  | zero =>
    intro k lr hn he hf x hx
    have hguard : guardQ cfg.JOB_TIMEOUT cfg.SLEEP lr.timeout_counter = false := by
      cases hg : guardQ cfg.JOB_TIMEOUT cfg.SLEEP lr.timeout_counter with
      | false => rfl
      | true => exact absurd (guardQ_counter_lt hg) (by omega)
    rw [wait_lr_loop_nil (by simp [hguard])] at hx
    simp at hx
  | succ n ih =>
    intro k lr hn he hf x hx
    by_cases hc : (guardQ cfg.JOB_TIMEOUT cfg.SLEEP lr.timeout_counter
        && !lr.has_error && !lr.is_finished) = true
    · have hg : guardQ cfg.JOB_TIMEOUT cfg.SLEEP lr.timeout_counter = true := by
        simp only [Bool.and_eq_true] at hc
        exact hc.1.1
      have hJ := guardQ_counter_lt hg
      rw [wait_lr_loop_pos hc] at hx
      cases hpk : polls k with
      | none =>
        rw [hpk] at hx
        simp at hx
      | some ma =>
        rw [hpk] at hx
        by_cases hs : ma.status = MACHINE_ACTION_STATUS.SUCCEEDED
        · simp [hs] at hx
        · by_cases hfl : ma.status ∈ MACHINE_ACTION_STATUS.FAIL
          · cases hca : ma.commands.head?.bind (fun c => c.errors.head?) with
            | none => simp [hs, hfl, hca] at hx
            | some e => simp [hs, hfl, hca] at hx
          · simp only [if_neg hs, if_neg hfl] at hx
            cases hrest : (wait_lr_loop cfg polls (k + 1)
                { lr with timeout_counter := lr.timeout_counter + 1 }).trace with
            | nil =>
              rw [hrest] at hx
              simp at hx
            | cons b bs =>
              rw [hrest] at hx
              rw [List.dropLast_cons₂] at hx
              rcases List.mem_cons.mp hx with hx1 | hx2
              · subst hx1
                simp [LiveResponse.isTerminal, he, hf]
              · have := ih (k + 1)
                  { lr with timeout_counter := lr.timeout_counter + 1 }
                  (by simp; omega) (by simp [he]) (by simp [hf]) x
                rw [hrest] at this
                exact this hx2
    · rw [wait_lr_loop_nil (Bool.eq_false_iff.mpr hc)] at hx
      simp at hx

lemma wait_lr_loop_terminal_mem_last {cfg : MachineActionConfig}
    {polls : Nat → Option MachineAction} :
    ∀ n k (lr : LiveResponse), cfg.JOB_TIMEOUT - lr.timeout_counter ≤ n →
      lr.has_error = false → lr.is_finished = false →
      ∀ x ∈ (wait_lr_loop cfg polls k lr).trace, x.isTerminal = true →
        x = (wait_lr_loop cfg polls k lr).trace.getLastD lr := by
  intro n
  induction n with
  | zero =>
    intro k lr hn he hf x hx hterm
    have hguard : guardQ cfg.JOB_TIMEOUT cfg.SLEEP lr.timeout_counter = false := by
      cases hg : guardQ cfg.JOB_TIMEOUT cfg.SLEEP lr.timeout_counter with
      | false => rfl
      | true => exact absurd (guardQ_counter_lt hg) (by omega)
    rw [wait_lr_loop_nil (by simp [hguard])] at hx
    simp at hx
  | succ n ih =>
    intro k lr hn he hf x hx hterm
    by_cases hc : (guardQ cfg.JOB_TIMEOUT cfg.SLEEP lr.timeout_counter
        && !lr.has_error && !lr.is_finished) = true
    · have hg : guardQ cfg.JOB_TIMEOUT cfg.SLEEP lr.timeout_counter = true := by
        simp only [Bool.and_eq_true] at hc
        exact hc.1.1
      have hJ := guardQ_counter_lt hg
      rw [wait_lr_loop_pos hc] at hx ⊢
      cases hpk : polls k with
      | none =>
        rw [hpk] at hx
        simp at hx
        simp [hx]
      | some ma =>
        rw [hpk] at hx
        by_cases hs : ma.status = MACHINE_ACTION_STATUS.SUCCEEDED
        · simp [hs] at hx ⊢
          simp [hx]
        · by_cases hfl : ma.status ∈ MACHINE_ACTION_STATUS.FAIL
          · cases hca : ma.commands.head?.bind (fun c => c.errors.head?) with
            | none => simp [hs, hfl, hca] at hx
            | some e =>
              simp [hs, hfl, hca] at hx ⊢
              simp [hx]
          · simp only [if_neg hs, if_neg hfl] at hx ⊢
            rw [List.getLastD_cons]
            rcases List.mem_cons.mp hx with hx1 | hx2
            · subst hx1
              simp [LiveResponse.isTerminal, he, hf] at hterm
            · exact ih (k + 1)
                { lr with timeout_counter := lr.timeout_counter + 1 }
                (by simp; omega) (by simp [he]) (by simp [hf]) x hx2 hterm
    · rw [wait_lr_loop_nil (Bool.eq_false_iff.mpr hc)] at hx
      simp at hx

lemma wait_lr_loop_getLastD_terminal_guard {cfg : MachineActionConfig}
    {polls : Nat → Option MachineAction} :
    ∀ n k (lr : LiveResponse), cfg.JOB_TIMEOUT - lr.timeout_counter ≤ n →
      lr.has_error = false → lr.is_finished = false →
      (((wait_lr_loop cfg polls k lr).trace.getLastD lr).isTerminal = true) →
      guardQ cfg.JOB_TIMEOUT cfg.SLEEP
        ((wait_lr_loop cfg polls k lr).trace.getLastD lr).timeout_counter =
        true := by
  intro n
  induction n with
  | zero =>
    intro k lr hn he hf hterm
    have hguard : guardQ cfg.JOB_TIMEOUT cfg.SLEEP lr.timeout_counter = false := by
      cases hg : guardQ cfg.JOB_TIMEOUT cfg.SLEEP lr.timeout_counter with
      | false => rfl
      | true => exact absurd (guardQ_counter_lt hg) (by omega)
    rw [wait_lr_loop_nil (by simp [hguard])] at hterm
    simp [List.getLastD, LiveResponse.isTerminal, he, hf] at hterm
  | succ n ih =>
    intro k lr hn he hf hterm
    by_cases hc : (guardQ cfg.JOB_TIMEOUT cfg.SLEEP lr.timeout_counter
        && !lr.has_error && !lr.is_finished) = true
    · have hg : guardQ cfg.JOB_TIMEOUT cfg.SLEEP lr.timeout_counter = true := by
        simp only [Bool.and_eq_true] at hc
        exact hc.1.1
      have hJ := guardQ_counter_lt hg
      rw [wait_lr_loop_pos hc] at hterm ⊢
      cases hpk : polls k with
      | none =>
        rw [hpk] at hterm
        simpa using hg
      | some ma =>
        rw [hpk] at hterm
        by_cases hs : ma.status = MACHINE_ACTION_STATUS.SUCCEEDED
        · simp [hs] at hterm ⊢
          exact hg
        · by_cases hfl : ma.status ∈ MACHINE_ACTION_STATUS.FAIL
          · cases hca : ma.commands.head?.bind (fun c => c.errors.head?) with
            | none =>
              simp [hs, hfl, hca, LiveResponse.isTerminal, he, hf] at hterm
            | some e =>
              simp [hs, hfl, hca]
              exact hg
          · simp only [if_neg hs, if_neg hfl] at hterm ⊢
            rw [List.getLastD_cons] at hterm ⊢
            exact ih (k + 1)
              { lr with timeout_counter := lr.timeout_counter + 1 }
              (by simp; omega) (by simp [he]) (by simp [hf]) hterm
    · rw [wait_lr_loop_nil (Bool.eq_false_iff.mpr hc)] at hterm
      simp [List.getLastD, LiveResponse.isTerminal, he, hf] at hterm

lemma getD_nonterminal_of_dropLast :
    ∀ (L : List LiveResponse) (d : LiveResponse),
      (∀ x ∈ L.dropLast, x.isTerminal = false) →
      ∀ i, i + 1 < L.length → (L.getD i d).isTerminal = false := by
  intro L
  induction L with
  | nil =>
    intro d h i hi
    simp at hi
  | cons a l ih =>
    intro d h i hi
    cases l with
    | nil => simp at hi
    | cons b bs =>
      cases i with
      | zero =>
        have ha : a ∈ ((a :: b :: bs).dropLast) := by
          rw [List.dropLast_cons₂]
          exact List.mem_cons_self _ _
        simpa using h a ha
      | succ i =>
        have hsub : ∀ x ∈ (b :: bs).dropLast, x.isTerminal = false := by
          intro x hx
          refine h x ?_
          rw [List.dropLast_cons₂]
          exact List.mem_cons_of_mem _ hx
        have hlen : i + 1 < (b :: bs).length := by
          simpa using Nat.lt_of_succ_lt_succ hi
        simpa using ih d hsub i hlen

/-- C4: once a tracked remote action is in a terminal state (finished or
error flag set, covering `SUCCEEDED`, `FAILED` and `TIMED_OUT`/`CANCELLED`),
no later step of the tracker changes its status or its finished/error flags:
in the state trace of a `wait_live_response` run started on a non-terminal
job, every state at or after a terminal state agrees with it on status and
both flags. -/
theorem terminal_status_monotonic (cfg : MachineActionConfig)
    (polls : Nat → Option MachineAction) (cres : CancelResponse)
    (lr0 : LiveResponse) (he : lr0.has_error = false)
    (hf : lr0.is_finished = false) :
    ∀ i j, i ≤ j →
      j < (lr0 :: (wait_live_response cfg polls cres lr0).trace).length →
      ((lr0 :: (wait_live_response cfg polls cres lr0).trace).getD i
        lr0).isTerminal = true →
      ((lr0 :: (wait_live_response cfg polls cres lr0).trace).getD j
          lr0).status =
        ((lr0 :: (wait_live_response cfg polls cres lr0).trace).getD i
          lr0).status ∧
      ((lr0 :: (wait_live_response cfg polls cres lr0).trace).getD j
          lr0).is_finished =
        ((lr0 :: (wait_live_response cfg polls cres lr0).trace).getD i
          lr0).is_finished ∧
      ((lr0 :: (wait_live_response cfg polls cres lr0).trace).getD j
          lr0).has_error =
        ((lr0 :: (wait_live_response cfg polls cres lr0).trace).getD i
          lr0).has_error := by
  have hdrop : ∀ x ∈ (lr0 :: (wait_live_response cfg polls cres lr0).trace).dropLast,
      x.isTerminal = false := by
    intro x hx
    have hloopdrop := @wait_lr_loop_dropLast_nonterminal cfg polls
      (cfg.JOB_TIMEOUT - lr0.timeout_counter) 0 lr0
      (le_refl _) he hf
    have hmemlast := @wait_lr_loop_terminal_mem_last cfg polls
      (cfg.JOB_TIMEOUT - lr0.timeout_counter) 0 lr0
      (le_refl _) he hf
    have hlastguard := @wait_lr_loop_getLastD_terminal_guard cfg polls
      (cfg.JOB_TIMEOUT - lr0.timeout_counter) 0 lr0
      (le_refl _) he hf
    revert hx
    unfold wait_live_response
    dsimp only
    split
    · intro hx
      cases htr : (wait_lr_loop cfg polls 0 lr0).trace with
      | nil =>
        rw [htr] at hx
        simp at hx
      | cons b bs =>
        rw [htr] at hx
        rw [List.dropLast_cons₂] at hx
        rcases List.mem_cons.mp hx with hx1 | hx2
        · subst hx1
          simp [LiveResponse.isTerminal, he, hf]
        · refine hloopdrop x ?_
          rw [htr]
          exact hx2
    · split
      · intro hx
        cases htr : (wait_lr_loop cfg polls 0 lr0).trace with
        | nil =>
          rw [htr] at hx
          simp at hx
        | cons b bs =>
          rw [htr] at hx
          rw [List.dropLast_cons₂] at hx
          rcases List.mem_cons.mp hx with hx1 | hx2
          · subst hx1
            simp [LiveResponse.isTerminal, he, hf]
          · refine hloopdrop x ?_
            rw [htr]
            exact hx2
      · rename_i hraised hguard
        intro hx
        have hne : (wait_lr_loop cfg polls 0 lr0).trace ++
            [{ (wait_lr_loop cfg polls 0 lr0).trace.getLastD lr0 with
                has_error := true
                status := some MACHINE_ACTION_STATUS.TIMEOUT }] ≠ [] := by
          simp
        rcases List.mem_cons.mp (by
            have h2 : x ∈ (lr0 :: ((wait_lr_loop cfg polls 0 lr0).trace ++
              [{ (wait_lr_loop cfg polls 0 lr0).trace.getLastD lr0 with
                  has_error := true
                  status := some MACHINE_ACTION_STATUS.TIMEOUT }])).dropLast :=
              hx
            rw [List.dropLast_cons_of_ne_nil hne, List.dropLast_concat] at h2
            exact h2) with hx1 | hx2
        · subst hx1
          simp [LiveResponse.isTerminal, he, hf]
        · cases hxterm : x.isTerminal with
          | false => rfl
          | true =>
            exfalso
            have hxlast := hmemlast x hx2 hxterm
            have hguardx := hlastguard (by rw [← hxlast]; exact hxterm)
            exact hguard hguardx
  intro i j hij hj hterm
  have hi_big : ¬ (i + 1 <
      (lr0 :: (wait_live_response cfg polls cres lr0).trace).length) := by
    intro hcon
    rw [getD_nonterminal_of_dropLast _ lr0 hdrop i hcon] at hterm
    cases hterm
  have hij2 : i = j := by omega
  subst hij2
  exact ⟨rfl, rfl, rfl⟩

/-- C4 witness: a job that succeeds on the first poll yields the trace
`[fresh, succeeded]`; the monotonicity theorem applied at the terminal index
`i = j = 1` confirms the fields agree there, and the side conditions (index
in range, state at index 1 terminal) evaluate on the concrete run. -/
theorem terminal_status_monotonic_inst :
    ((({ id := some "a1", index := 0, status := none, is_finished := false,
         has_error := false, timeout_counter := 0 } : LiveResponse) ::
      (wait_live_response
        { MACHINE_TIMEOUT := 60, JOB_TIMEOUT := 30, SLEEP := 10,
          ISOLATION := ⟨false, []⟩, ANTI_VIRUS_SCAN := ⟨false, []⟩,
          COLLECT_INVESTIGATION_PACKAGE := ⟨false, []⟩,
          STOP_AND_QUARANTINE_FILE := ⟨false, []⟩ }
        (fun _ => some { id := "a1", status := "Succeeded", commands := [] })
        CancelResponse.okay
        { id := some "a1", index := 0, status := none, is_finished := false,
          has_error := false, timeout_counter := 0 }).trace).getD 1
      { id := some "a1", index := 0, status := none, is_finished := false,
        has_error := false, timeout_counter := 0 }).status =
    ((({ id := some "a1", index := 0, status := none, is_finished := false,
         has_error := false, timeout_counter := 0 } : LiveResponse) ::
      (wait_live_response
        { MACHINE_TIMEOUT := 60, JOB_TIMEOUT := 30, SLEEP := 10,
          ISOLATION := ⟨false, []⟩, ANTI_VIRUS_SCAN := ⟨false, []⟩,
          COLLECT_INVESTIGATION_PACKAGE := ⟨false, []⟩,
          STOP_AND_QUARANTINE_FILE := ⟨false, []⟩ }
        (fun _ => some { id := "a1", status := "Succeeded", commands := [] })
        CancelResponse.okay
        { id := some "a1", index := 0, status := none, is_finished := false,
          has_error := false, timeout_counter := 0 }).trace).getD 1
      { id := some "a1", index := 0, status := none, is_finished := false,
        has_error := false, timeout_counter := 0 }).status := by
  refine (terminal_status_monotonic
    { MACHINE_TIMEOUT := 60, JOB_TIMEOUT := 30, SLEEP := 10,
      ISOLATION := ⟨false, []⟩, ANTI_VIRUS_SCAN := ⟨false, []⟩,
      COLLECT_INVESTIGATION_PACKAGE := ⟨false, []⟩,
      STOP_AND_QUARANTINE_FILE := ⟨false, []⟩ }
    (fun _ => some { id := "a1", status := "Succeeded", commands := [] })
    CancelResponse.okay
    { id := some "a1", index := 0, status := none, is_finished := false,
      has_error := false, timeout_counter := 0 }
    rfl rfl 1 1 (le_refl 1) ?_ ?_).1
  · simp [wait_live_response, wait_lr_loop, guardQ_eval,
      MACHINE_ACTION_STATUS.SUCCEEDED, MACHINE_ACTION_STATUS.FAIL]
  · simp [wait_live_response, wait_lr_loop, guardQ_eval, LiveResponse.isTerminal,
      MACHINE_ACTION_STATUS.SUCCEEDED, MACHINE_ACTION_STATUS.FAIL]

/-- C6: `wait_live_response` issues at most one cancellation call, and it
issues one exactly when the poll budget is exhausted (the rational guard
`JOB_TIMEOUT / SLEEP > timeout_counter` fails on the final counter); whenever
a cancellation is issued the action has just been marked `TIMED_OUT` with the
error flag set.  No other path of the tracker reaches
`cancel_machine_action`. -/
theorem cancel_only_timeout_path (cfg : MachineActionConfig)
    (polls : Nat → Option MachineAction) (cres : CancelResponse)
    (lr0 : LiveResponse) :
    (wait_live_response cfg polls cres lr0).cancelCalls ≤ 1 ∧
    ((wait_live_response cfg polls cres lr0).cancelCalls = 1 ↔
      guardQ cfg.JOB_TIMEOUT cfg.SLEEP
        (wait_live_response cfg polls cres lr0).final.timeout_counter = false) ∧
    ((wait_live_response cfg polls cres lr0).cancelCalls = 1 →
      (wait_live_response cfg polls cres lr0).final.status =
        some MACHINE_ACTION_STATUS.TIMEOUT ∧
      (wait_live_response cfg polls cres lr0).final.has_error = true) := by
  unfold wait_live_response
  dsimp only
  split
  · rename_i hraised
    have hg := wait_lr_loop_raised_guard (cfg.JOB_TIMEOUT - lr0.timeout_counter)
      0 lr0 (le_refl _) hraised
    refine ⟨by simp, ⟨?_, ?_⟩, ?_⟩
    · intro hcon
      simp at hcon
    · intro hrhs
      dsimp only at hrhs
      rw [hg] at hrhs
      simp at hrhs
    · intro hcon
      simp at hcon
  · split
    · rename_i hraised hguard
      refine ⟨by simp, ⟨?_, ?_⟩, ?_⟩
      · intro hcon
        simp at hcon
      · intro hrhs
        dsimp only at hrhs
        rw [hguard] at hrhs
        cases hrhs
      · intro hcon
        simp at hcon
    · rename_i hraised hguard
      have hguard2 : guardQ cfg.JOB_TIMEOUT cfg.SLEEP
          ((wait_lr_loop cfg polls 0 lr0).trace.getLastD lr0).timeout_counter =
          false := Bool.eq_false_iff.mpr hguard
      exact ⟨le_refl 1, ⟨fun _ => hguard2, fun _ => rfl⟩, fun _ => ⟨rfl, rfl⟩⟩

/-- C6 witness: on a job that stays `InProgress` with `JOB_TIMEOUT = 30`,
`SLEEP = 10`, the run issues at most one cancellation, and the
cancellation-iff-budget-exhausted equivalence holds on this concrete run. -/
theorem cancel_only_timeout_path_inst :
    (wait_live_response
        { MACHINE_TIMEOUT := 60, JOB_TIMEOUT := 30, SLEEP := 10,
          ISOLATION := ⟨false, []⟩, ANTI_VIRUS_SCAN := ⟨false, []⟩,
          COLLECT_INVESTIGATION_PACKAGE := ⟨false, []⟩,
          STOP_AND_QUARANTINE_FILE := ⟨false, []⟩ }
        (fun _ => some { id := "a1", status := "InProgress", commands := [] })
        CancelResponse.exn
        { id := some "a1", index := 0, status := none, is_finished := false,
          has_error := false, timeout_counter := 0 }).cancelCalls ≤ 1 ∧
    ((wait_live_response
        { MACHINE_TIMEOUT := 60, JOB_TIMEOUT := 30, SLEEP := 10,
          ISOLATION := ⟨false, []⟩, ANTI_VIRUS_SCAN := ⟨false, []⟩,
          COLLECT_INVESTIGATION_PACKAGE := ⟨false, []⟩,
          STOP_AND_QUARANTINE_FILE := ⟨false, []⟩ }
        (fun _ => some { id := "a1", status := "InProgress", commands := [] })
        CancelResponse.exn
        { id := some "a1", index := 0, status := none, is_finished := false,
          has_error := false, timeout_counter := 0 }).cancelCalls = 1 →
      (wait_live_response
        { MACHINE_TIMEOUT := 60, JOB_TIMEOUT := 30, SLEEP := 10,
          ISOLATION := ⟨false, []⟩, ANTI_VIRUS_SCAN := ⟨false, []⟩,
          COLLECT_INVESTIGATION_PACKAGE := ⟨false, []⟩,
          STOP_AND_QUARANTINE_FILE := ⟨false, []⟩ }
        (fun _ => some { id := "a1", status := "InProgress", commands := [] })
        CancelResponse.exn
        { id := some "a1", index := 0, status := none, is_finished := false,
          has_error := false, timeout_counter := 0 }).final.status =
        some MACHINE_ACTION_STATUS.TIMEOUT) := by
  refine ⟨(cancel_only_timeout_path _ _ _ _).1, fun hc => ?_⟩
  exact ((cancel_only_timeout_path _ _ _ _).2.2 hc).1

/-- C10: in `run_live_response`, the machine's shared timeout counter is
incremented (with a `SLEEP`-second sleep) exactly when the outer availability
check fails; when the outer check succeeds the counter is unchanged by the
whole pass; and an inner-loop unavailable check leaves the evidence, the
counter-free state and the submission count untouched, performing only a
`SLEEP / 60`-second sleep. -/
theorem inner_unavailability_frame (cfg : MachineActionConfig)
    (env : LiveResponseEnv) (ix : OracleIx) (c : Nat) (evs : List Evidence) :
    (is_machine_available (env.actionsList ix.avail) = false →
      (run_lr_iteration cfg env ix c evs).2.1 = c + 1 ∧
      (run_lr_iteration cfg env ix c evs).2.2.2.sleeps = [(cfg.SLEEP : ℚ)]) ∧
    (is_machine_available (env.actionsList ix.avail) = true →
      (run_lr_iteration cfg env ix c evs).2.1 = c) ∧
    (∀ ix2 ev, is_machine_available (env.actionsList ix2.avail) = false →
      process_evidence cfg env ix2 ev =
        (ev, { ix2 with avail := ix2.avail + 1 },
          { sleeps := [(cfg.SLEEP : ℚ) / 60] })) := by
  refine ⟨?_, ?_, ?_⟩
  · intro hav
    simp [run_lr_iteration, hav]
  · intro hav
    simp [run_lr_iteration, hav]
  · intro ix2 ev hav
    simp [process_evidence, hav]

/-- C10 witness: with a machine that lists as busy, one outer iteration
increments the counter from 0 to 1 and sleeps 10 seconds, and one inner
evidence step leaves the evidence unchanged and sleeps 1/6 second
(`SLEEP / 60` with `SLEEP = 10`). -/
theorem inner_unavailability_frame_inst :
    (run_lr_iteration
        { MACHINE_TIMEOUT := 60, JOB_TIMEOUT := 30, SLEEP := 10,
          ISOLATION := ⟨false, []⟩, ANTI_VIRUS_SCAN := ⟨false, []⟩,
          COLLECT_INVESTIGATION_PACKAGE := ⟨false, []⟩,
          STOP_AND_QUARANTINE_FILE := ⟨false, []⟩ }
        { actionsList := fun _ =>
            some [{ id := "x", status := "Pending", commands := [] }],
          submit := fun _ => SubmitResult.okay "a1",
          enrich := fun _ => none,
          waitPolls := fun _ _ => none,
          cancelResp := fun _ => CancelResponse.okay,
          lrResult := fun _ => none }
        { avail := 0, submit := 0, enrich := 0, wait := 0, res := 0 } 0
        []).2.1 = 1 ∧
    (process_evidence
        { MACHINE_TIMEOUT := 60, JOB_TIMEOUT := 30, SLEEP := 10,
          ISOLATION := ⟨false, []⟩, ANTI_VIRUS_SCAN := ⟨false, []⟩,
          COLLECT_INVESTIGATION_PACKAGE := ⟨false, []⟩,
          STOP_AND_QUARANTINE_FILE := ⟨false, []⟩ }
        { actionsList := fun _ =>
            some [{ id := "x", status := "Pending", commands := [] }],
          submit := fun _ => SubmitResult.okay "a1",
          enrich := fun _ => none,
          waitPolls := fun _ _ => none,
          cancelResp := fun _ => CancelResponse.okay,
          lrResult := fun _ => none }
        { avail := 0, submit := 0, enrich := 0, wait := 0, res := 0 }
        { sha256 := "h", sha1 := "h1", absolute_path := "/tmp/f",
          machines := [], alerts := [],
          live_response :=
            { id := none, index := 0, status := none, is_finished := false,
              has_error := false, timeout_counter := 0 },
          download_url := none }).2.2.sleeps = [(10 : ℚ) / 60] := by
  constructor
  · exact ((inner_unavailability_frame _ _ _ _ _).1 (by
      simp [is_machine_available, availability_scan,
        MACHINE_ACTION_STATUS.NOT_AVAILABLE])).1
  · have h := (inner_unavailability_frame
      { MACHINE_TIMEOUT := 60, JOB_TIMEOUT := 30, SLEEP := 10,
        ISOLATION := ⟨false, []⟩, ANTI_VIRUS_SCAN := ⟨false, []⟩,
        COLLECT_INVESTIGATION_PACKAGE := ⟨false, []⟩,
        STOP_AND_QUARANTINE_FILE := ⟨false, []⟩ }
      { actionsList := fun _ =>
          some [{ id := "x", status := "Pending", commands := [] }],
        submit := fun _ => SubmitResult.okay "a1",
        enrich := fun _ => none,
        waitPolls := fun _ _ => none,
        cancelResp := fun _ => CancelResponse.okay,
        lrResult := fun _ => none }
      { avail := 0, submit := 0, enrich := 0, wait := 0, res := 0 } 0
      []).2.2
      { avail := 0, submit := 0, enrich := 0, wait := 0, res := 0 }
      { sha256 := "h", sha1 := "h1", absolute_path := "/tmp/f",
        machines := [], alerts := [],
        live_response :=
          { id := none, index := 0, status := none, is_finished := false,
            has_error := false, timeout_counter := 0 },
        download_url := none }
      (by simp [is_machine_available, availability_scan,
        MACHINE_ACTION_STATUS.NOT_AVAILABLE])
    rw [h]
    norm_num

lemma process_evidence_submits_one (cfg : MachineActionConfig)
    (env : LiveResponseEnv) (ix : OracleIx) (ev : Evidence)
    (hav : is_machine_available (env.actionsList ix.avail) = true) :
    (process_evidence cfg env ix ev).2.2.submits = 1 := by
  unfold process_evidence
  rw [if_pos hav]
  cases env.submit ix.submit with
  | errorField m => rfl
  | exn => rfl
  | okay jid =>
    cases env.enrich ix.enrich with
    | none => rfl
    | some ma =>
      dsimp only
      split
      · rfl
      · split
        · split <;> rfl
        · rfl

/-- C9: a live-response submission whose response body carries an `error`
field is non-fatal: the error is logged, the evidence's job is marked
failed, `wait_live_response` is never entered for it, its download url is
untouched, the evidence-queue fold continues with the remaining evidences,
and (for any submission outcomes whatsoever) an available machine's queue
receives exactly one submission POST per evidence — no abort. -/
theorem submit_error_nonfatal (cfg : MachineActionConfig)
    (env : LiveResponseEnv) (ix : OracleIx) (ev : Evidence) (msg : String)
    (hav : is_machine_available (env.actionsList ix.avail) = true)
    (hsub : env.submit ix.submit = SubmitResult.errorField msg) :
    (process_evidence cfg env ix ev).1.live_response.has_error = true ∧
    (process_evidence cfg env ix ev).2.2.waitRuns = 0 ∧
    (process_evidence cfg env ix ev).2.2.errorLogs = 1 ∧
    (process_evidence cfg env ix ev).2.2.submits = 1 ∧
    (process_evidence cfg env ix ev).1.download_url = ev.download_url ∧
    (∀ rest, (process_evidences cfg env ix (ev :: rest)).1 =
      (process_evidence cfg env ix ev).1 ::
        (process_evidences cfg env (process_evidence cfg env ix ev).2.1 rest).1) ∧
    (∀ evs ix2, (∀ k, is_machine_available (env.actionsList k) = true) →
      (process_evidences cfg env ix2 evs).2.2.submits = evs.length) := by
  refine ⟨?_, ?_, ?_, ?_, ?_, fun rest => rfl, ?_⟩
  · simp [process_evidence, hav, hsub]
  · simp [process_evidence, hav, hsub]
  · simp [process_evidence, hav, hsub]
  · simp [process_evidence, hav, hsub]
  · simp [process_evidence, hav, hsub]
  · intro evs
    induction evs with
    | nil =>
      intro ix2 hall
      rfl
    | cons e rest ih =>
      intro ix2 hall
      have h1 : (process_evidence cfg env ix2 e).2.2.submits = 1 :=
        process_evidence_submits_one cfg env ix2 e (hall ix2.avail)
      show ((process_evidence cfg env ix2 e).2.2.merge
        (process_evidences cfg env (process_evidence cfg env ix2 e).2.1
          rest).2.2).submits = rest.length + 1
      rw [RunStats.merge]
      dsimp only
      rw [h1, ih (process_evidence cfg env ix2 e).2.1 hall]
      omega

/-- C9 witness: an available machine whose submission returns an `error`
body marks the evidence failed with one logged error and no wait run, and a
two-evidence queue still receives two submissions. -/
theorem submit_error_nonfatal_inst :
    (process_evidence
        { MACHINE_TIMEOUT := 60, JOB_TIMEOUT := 30, SLEEP := 10,
          ISOLATION := ⟨false, []⟩, ANTI_VIRUS_SCAN := ⟨false, []⟩,
          COLLECT_INVESTIGATION_PACKAGE := ⟨false, []⟩,
          STOP_AND_QUARANTINE_FILE := ⟨false, []⟩ }
        { actionsList := fun _ => some [],
          submit := fun _ => SubmitResult.errorField "bad request",
          enrich := fun _ => none,
          waitPolls := fun _ _ => none,
          cancelResp := fun _ => CancelResponse.okay,
          lrResult := fun _ => none }
        { avail := 0, submit := 0, enrich := 0, wait := 0, res := 0 }
        { sha256 := "h", sha1 := "h1", absolute_path := "/tmp/f",
          machines := [], alerts := [],
          live_response :=
            { id := none, index := 0, status := none, is_finished := false,
              has_error := false, timeout_counter := 0 },
          download_url := none }).1.live_response.has_error = true ∧
    (process_evidence
        { MACHINE_TIMEOUT := 60, JOB_TIMEOUT := 30, SLEEP := 10,
          ISOLATION := ⟨false, []⟩, ANTI_VIRUS_SCAN := ⟨false, []⟩,
          COLLECT_INVESTIGATION_PACKAGE := ⟨false, []⟩,
          STOP_AND_QUARANTINE_FILE := ⟨false, []⟩ }
        { actionsList := fun _ => some [],
          submit := fun _ => SubmitResult.errorField "bad request",
          enrich := fun _ => none,
          waitPolls := fun _ _ => none,
          cancelResp := fun _ => CancelResponse.okay,
          lrResult := fun _ => none }
        { avail := 0, submit := 0, enrich := 0, wait := 0, res := 0 }
        { sha256 := "h", sha1 := "h1", absolute_path := "/tmp/f",
          machines := [], alerts := [],
          live_response :=
            { id := none, index := 0, status := none, is_finished := false,
              has_error := false, timeout_counter := 0 },
          download_url := none }).2.2.waitRuns = 0 ∧
    (process_evidences
        { MACHINE_TIMEOUT := 60, JOB_TIMEOUT := 30, SLEEP := 10,
          ISOLATION := ⟨false, []⟩, ANTI_VIRUS_SCAN := ⟨false, []⟩,
          COLLECT_INVESTIGATION_PACKAGE := ⟨false, []⟩,
          STOP_AND_QUARANTINE_FILE := ⟨false, []⟩ }
        { actionsList := fun _ => some [],
          submit := fun _ => SubmitResult.errorField "bad request",
          enrich := fun _ => none,
          waitPolls := fun _ _ => none,
          cancelResp := fun _ => CancelResponse.okay,
          lrResult := fun _ => none }
        { avail := 0, submit := 0, enrich := 0, wait := 0, res := 0 }
        [{ sha256 := "h", sha1 := "h1", absolute_path := "/tmp/f",
           machines := [], alerts := [],
           live_response :=
             { id := none, index := 0, status := none, is_finished := false,
               has_error := false, timeout_counter := 0 },
           download_url := none },
         { sha256 := "g", sha1 := "g1", absolute_path := "/tmp/g",
           machines := [], alerts := [],
           live_response :=
             { id := none, index := 0, status := none, is_finished := false,
               has_error := false, timeout_counter := 0 },
           download_url := none }]).2.2.submits = 2 := by
  have h := submit_error_nonfatal
    { MACHINE_TIMEOUT := 60, JOB_TIMEOUT := 30, SLEEP := 10,
      ISOLATION := ⟨false, []⟩, ANTI_VIRUS_SCAN := ⟨false, []⟩,
      COLLECT_INVESTIGATION_PACKAGE := ⟨false, []⟩,
      STOP_AND_QUARANTINE_FILE := ⟨false, []⟩ }
    { actionsList := fun _ => some [],
      submit := fun _ => SubmitResult.errorField "bad request",
      enrich := fun _ => none,
      waitPolls := fun _ _ => none,
      cancelResp := fun _ => CancelResponse.okay,
      lrResult := fun _ => none }
    { avail := 0, submit := 0, enrich := 0, wait := 0, res := 0 }
    { sha256 := "h", sha1 := "h1", absolute_path := "/tmp/f",
      machines := [], alerts := [],
      live_response :=
        { id := none, index := 0, status := none, is_finished := false,
          has_error := false, timeout_counter := 0 },
      download_url := none }
    "bad request" rfl rfl
  exact ⟨h.1, h.2.1, h.2.2.2.2.2.2 _ _ (fun k => rfl)⟩

lemma run_lr_loop_unavail_budget (cfg : MachineActionConfig)
    (env : LiveResponseEnv) (hS : 0 < cfg.SLEEP)
    (hav : ∀ k, k < ceilDivNat cfg.MACHINE_TIMEOUT cfg.SLEEP →
      is_machine_available (env.actionsList k) = false) :
    ∀ fuel c (evs : List Evidence) (ix : OracleIx),
      ceilDivNat cfg.MACHINE_TIMEOUT cfg.SLEEP ≤ c + fuel →
      ix.avail ≤ c →
      ∃ p, run_lr_machine_loop cfg env fuel ix c evs = some p ∧
        p.2.2.1 = evs ∧ p.2.2.2.submits = 0 := by
  intro fuel
  induction fuel with
  | zero =>
    intro c evs ix hle hix
    have hg : guardQ cfg.MACHINE_TIMEOUT cfg.SLEEP c = false :=
      guardQ_false_of_ceil hS (by omega)
    refine ⟨(ix, c, evs, {}), ?_, rfl, rfl⟩
    rw [run_lr_machine_loop]
    simp [hg]
  | succ fuel ih =>
    intro c evs ix hle hix
    by_cases hg : guardQ cfg.MACHINE_TIMEOUT cfg.SLEEP c = true
    · by_cases hp : pendingActions evs = true
      · have hcond : (guardQ cfg.MACHINE_TIMEOUT cfg.SLEEP c
            && pendingActions evs) = true := by
          simp [hg, hp]
        have hck : ix.avail < ceilDivNat cfg.MACHINE_TIMEOUT cfg.SLEEP :=
          lt_of_le_of_lt hix (guardQ_lt_ceil hS hg)
        have hit : run_lr_iteration cfg env ix c evs =
            ({ ix with avail := ix.avail + 1 }, c + 1, evs,
              { sleeps := [(cfg.SLEEP : ℚ)] }) := by
          simp [run_lr_iteration, hav ix.avail hck]
        obtain ⟨p, hpeq, hevs, hsub⟩ :=
          ih (c + 1) evs { ix with avail := ix.avail + 1 } (by omega)
            (by show ix.avail + 1 ≤ c + 1; omega)
        refine ⟨(p.1, p.2.1, p.2.2.1,
          ({ sleeps := [(cfg.SLEEP : ℚ)] } : RunStats).merge p.2.2.2),
          ?_, by simpa using hevs, by simp [RunStats.merge, hsub]⟩
        rw [run_lr_machine_loop, if_pos hcond]
        dsimp only
        rw [hit]
        dsimp only
        rw [hpeq]
      · have hcond : (guardQ cfg.MACHINE_TIMEOUT cfg.SLEEP c
            && pendingActions evs) = false := by
          have hp2 : pendingActions evs = false := Bool.eq_false_iff.mpr hp
          simp [hp2]
        refine ⟨(ix, c, evs, {}), ?_, rfl, rfl⟩
        rw [run_lr_machine_loop]
        simp [hcond]
    · have hg2 : guardQ cfg.MACHINE_TIMEOUT cfg.SLEEP c = false :=
        Bool.eq_false_iff.mpr hg
      refine ⟨(ix, c, evs, {}), ?_, rfl, rfl⟩
      rw [run_lr_machine_loop]
      simp [hg2]

lemma containment_loop_unavail_budget (cfg : MachineActionConfig)
    (env : ContainmentEnv) (hS : 0 < cfg.SLEEP)
    (hav : ∀ k, k < ceilDivNat cfg.MACHINE_TIMEOUT cfg.SLEEP →
      is_machine_available (env.actionsList k) = false) :
    ∀ n t ix, cfg.MACHINE_TIMEOUT - t ≤ n → ix ≤ t →
      (containment_loop cfg env t ix).submits = 0 ∧
      (containment_loop cfg env t ix).timeoutLogged = true := by
  intro n
  induction n with
  | zero =>
    intro t ix hn hix
    have hg : guardQ cfg.MACHINE_TIMEOUT cfg.SLEEP t = false := by
      cases hgg : guardQ cfg.MACHINE_TIMEOUT cfg.SLEEP t with
      | false => rfl
      | true => exact absurd (guardQ_counter_lt hgg) (by omega)
    rw [containment_loop]
    simp [hg]
  | succ n ih =>
    intro t ix hn hix
    by_cases hg : guardQ cfg.MACHINE_TIMEOUT cfg.SLEEP t = true
    · have hck : ix < ceilDivNat cfg.MACHINE_TIMEOUT cfg.SLEEP :=
        lt_of_le_of_lt hix (guardQ_lt_ceil hS hg)
      have h2 := ih (t + 1) (ix + 1) (by
        have := guardQ_counter_lt hg
        omega) (by omega)
      rw [containment_loop]
      simp [hg, hav ix hck]
      exact h2
    · have hg2 : guardQ cfg.MACHINE_TIMEOUT cfg.SLEEP t = false :=
        Bool.eq_false_iff.mpr hg
      rw [containment_loop]
      simp [hg2]

/-- C5 (amended): the availability budget of the source is
`ceil(MACHINE_TIMEOUT / POLL_INTERVAL)` checks, not the claimed floor — the
float-division guard `MACHINE_TIMEOUT / SLEEP > counter` admits one more
check when `SLEEP` does not divide `MACHINE_TIMEOUT`.  If the machine is
unavailable at each of the first `ceil(MACHINE_TIMEOUT / POLL_INTERVAL)`
availability checks, that budget is exhausted before any submission:
neither the live-response path nor a containment action issues a submission
POST, and both paths report the machine-unavailable timeout. -/
theorem unavailable_timeout_no_submit (cfg : MachineActionConfig)
    (hS : 0 < cfg.SLEEP) :
    (∀ (env : LiveResponseEnv) (fuel : Nat) (m : Machine),
      (∀ k, k < ceilDivNat cfg.MACHINE_TIMEOUT cfg.SLEEP →
        is_machine_available (env.actionsList k) = false) →
      ceilDivNat cfg.MACHINE_TIMEOUT cfg.SLEEP ≤ fuel →
      pendingActions m.evidences = true →
      (run_lr_one_machine cfg env fuel m).stats.submits = 0 ∧
      (run_lr_one_machine cfg env fuel m).stats.timeoutLogged = true ∧
      (run_lr_one_machine cfg env fuel m).completed = true) ∧
    (∀ env2 : ContainmentEnv,
      (∀ k, k < ceilDivNat cfg.MACHINE_TIMEOUT cfg.SLEEP →
        is_machine_available (env2.actionsList k) = false) →
      (containment_one cfg env2).submits = 0 ∧
      (containment_one cfg env2).timeoutLogged = true) := by
  constructor
  · intro env fuel m hav hfuel hpend
    obtain ⟨p, hpeq, hevs, hsub⟩ := run_lr_loop_unavail_budget cfg env hS hav
      fuel m.timeout_counter m.evidences
      { avail := 0, submit := 0, enrich := 0, wait := 0, res := 0 }
      (by omega) (Nat.zero_le _)
    unfold run_lr_one_machine
    rw [hpeq]
    dsimp only
    refine ⟨hsub, ?_, rfl⟩
    rw [hevs]
    exact hpend
  · intro env2 hav2
    exact containment_loop_unavail_budget cfg env2 hS hav2
      cfg.MACHINE_TIMEOUT 0 0 (by omega) (by omega)

/-- C5 witness: with `MACHINE_TIMEOUT = 20`, `SLEEP = 10`, a machine whose
first `ceil(20 / 10) = 2` availability listings fail and one pending
evidence, the live-response path makes no submission and logs the timeout,
and so does an isolation-style containment action. -/
theorem unavailable_timeout_no_submit_inst :
    (run_lr_one_machine
        { MACHINE_TIMEOUT := 20, JOB_TIMEOUT := 30, SLEEP := 10,
          ISOLATION := ⟨false, []⟩, ANTI_VIRUS_SCAN := ⟨false, []⟩,
          COLLECT_INVESTIGATION_PACKAGE := ⟨false, []⟩,
          STOP_AND_QUARANTINE_FILE := ⟨false, []⟩ }
        { actionsList := fun _ => none,
          submit := fun _ => SubmitResult.okay "a1",
          enrich := fun _ => none,
          waitPolls := fun _ _ => none,
          cancelResp := fun _ => CancelResponse.okay,
          lrResult := fun _ => none }
        2
        { id := "m1",
          evidences :=
            [{ sha256 := "h", sha1 := "h1", absolute_path := "/tmp/f",
               machines := [], alerts := [],
               live_response :=
                 { id := none, index := 0, status := none,
                   is_finished := false, has_error := false,
                   timeout_counter := 0 },
               download_url := none }],
          timeout_counter := 0 }).stats.submits = 0 ∧
    (run_lr_one_machine
        { MACHINE_TIMEOUT := 20, JOB_TIMEOUT := 30, SLEEP := 10,
          ISOLATION := ⟨false, []⟩, ANTI_VIRUS_SCAN := ⟨false, []⟩,
          COLLECT_INVESTIGATION_PACKAGE := ⟨false, []⟩,
          STOP_AND_QUARANTINE_FILE := ⟨false, []⟩ }
        { actionsList := fun _ => none,
          submit := fun _ => SubmitResult.okay "a1",
          enrich := fun _ => none,
          waitPolls := fun _ _ => none,
          cancelResp := fun _ => CancelResponse.okay,
          lrResult := fun _ => none }
        2
        { id := "m1",
          evidences :=
            [{ sha256 := "h", sha1 := "h1", absolute_path := "/tmp/f",
               machines := [], alerts := [],
               live_response :=
                 { id := none, index := 0, status := none,
                   is_finished := false, has_error := false,
                   timeout_counter := 0 },
               download_url := none }],
          timeout_counter := 0 }).stats.timeoutLogged = true ∧
    (containment_one
        { MACHINE_TIMEOUT := 20, JOB_TIMEOUT := 30, SLEEP := 10,
          ISOLATION := ⟨false, []⟩, ANTI_VIRUS_SCAN := ⟨false, []⟩,
          COLLECT_INVESTIGATION_PACKAGE := ⟨false, []⟩,
          STOP_AND_QUARANTINE_FILE := ⟨false, []⟩ }
        { actionsList := fun _ => none,
          submit := SubmitResult.okay "a1" }).submits = 0 := by
  have h := unavailable_timeout_no_submit
    { MACHINE_TIMEOUT := 20, JOB_TIMEOUT := 30, SLEEP := 10,
      ISOLATION := ⟨false, []⟩, ANTI_VIRUS_SCAN := ⟨false, []⟩,
      COLLECT_INVESTIGATION_PACKAGE := ⟨false, []⟩,
      STOP_AND_QUARANTINE_FILE := ⟨false, []⟩ }
    (by decide)
  have h1 := h.1
    { actionsList := fun _ => none,
      submit := fun _ => SubmitResult.okay "a1",
      enrich := fun _ => none,
      waitPolls := fun _ _ => none,
      cancelResp := fun _ => CancelResponse.okay,
      lrResult := fun _ => none }
    2
    { id := "m1",
      evidences :=
        [{ sha256 := "h", sha1 := "h1", absolute_path := "/tmp/f",
           machines := [], alerts := [],
           live_response :=
             { id := none, index := 0, status := none,
               is_finished := false, has_error := false,
               timeout_counter := 0 },
           download_url := none }],
      timeout_counter := 0 }
    (fun k hk => rfl) (by decide) (by decide)
  have h2 := h.2
    { actionsList := fun _ => none, submit := SubmitResult.okay "a1" }
    (fun k hk => rfl)
  exact ⟨h1.1, h1.2.1, h2.1⟩

lemma containment_loop_first_avail (cfg : MachineActionConfig)
    (env : ContainmentEnv) (hS : 0 < cfg.SLEEP) :
    ∀ k t, (t + k) * cfg.SLEEP < cfg.MACHINE_TIMEOUT →
      (∀ j, j < k → is_machine_available (env.actionsList (t + j)) = false) →
      is_machine_available (env.actionsList (t + k)) = true →
      containment_loop cfg env t t =
        { availChecks := k + 1, submits := 1, okSubmit := submitOk env.submit,
          errorLogged := !submitOk env.submit,
          sleeps := List.replicate k (cfg.SLEEP : ℚ) ++ [(cfg.SLEEP : ℚ)] } := by
  intro k
  induction k with
  | zero =>
    intro t hlt hfalse htrue
    simp only [Nat.add_zero] at hlt htrue
    have hg : guardQ cfg.MACHINE_TIMEOUT cfg.SLEEP t = true :=
      (guardQ_iff_mul hS).mpr hlt
    rw [containment_loop]
    simp [hg, htrue]
  | succ k ih =>
    intro t hlt hfalse htrue
    have hg : guardQ cfg.MACHINE_TIMEOUT cfg.SLEEP t = true := by
      refine (guardQ_iff_mul hS).mpr ?_
      have hmono : t * cfg.SLEEP ≤ (t + (k + 1)) * cfg.SLEEP :=
        Nat.mul_le_mul_right _ (by omega)
      omega
    have hf0 : is_machine_available (env.actionsList t) = false := by
      have h0 := hfalse 0 (by omega)
      rwa [Nat.add_zero] at h0
    have hrec := ih (t + 1)
      (by rwa [show t + 1 + k = t + (k + 1) by omega])
      (by
        intro j hj
        have hj2 := hfalse (j + 1) (by omega)
        rwa [show t + (j + 1) = t + 1 + j by omega] at hj2)
      (by rwa [show t + (k + 1) = t + 1 + k by omega] at htrue)
    rw [containment_loop]
    simp [hg, hf0, hrec, List.replicate_succ]

/-- C5 counterexample: with `MACHINE_TIMEOUT = 25` and `SLEEP = 10` and a
machine whose first `floor(25 / 10) = 2` availability listings fail, the
floor budget is exhausted before any submission, yet the containment loop
performs a third availability check (the float guard `25 / 10 > 2` holds),
finds the machine available, submits, and never logs the
machine-unavailable timeout — the availability budget of the code is the
ceiling, not the floor. -/
theorem availability_budget_floor_cex :
    is_machine_available
      (({ actionsList := fun n => if n < 2 then none else some [],
          submit := SubmitResult.okay "act1" } : ContainmentEnv).actionsList 0)
      = false ∧
    is_machine_available
      (({ actionsList := fun n => if n < 2 then none else some [],
          submit := SubmitResult.okay "act1" } : ContainmentEnv).actionsList 1)
      = false ∧
    25 / 10 = 2 ∧
    (containment_one
        { MACHINE_TIMEOUT := 25, JOB_TIMEOUT := 30, SLEEP := 10,
          ISOLATION := ⟨false, []⟩, ANTI_VIRUS_SCAN := ⟨false, []⟩,
          COLLECT_INVESTIGATION_PACKAGE := ⟨false, []⟩,
          STOP_AND_QUARANTINE_FILE := ⟨false, []⟩ }
        { actionsList := fun n => if n < 2 then none else some [],
          submit := SubmitResult.okay "act1" }).submits = 1 ∧
    (containment_one
        { MACHINE_TIMEOUT := 25, JOB_TIMEOUT := 30, SLEEP := 10,
          ISOLATION := ⟨false, []⟩, ANTI_VIRUS_SCAN := ⟨false, []⟩,
          COLLECT_INVESTIGATION_PACKAGE := ⟨false, []⟩,
          STOP_AND_QUARANTINE_FILE := ⟨false, []⟩ }
        { actionsList := fun n => if n < 2 then none else some [],
          submit := SubmitResult.okay "act1" }).timeoutLogged = false := by
  have h := containment_loop_first_avail
    { MACHINE_TIMEOUT := 25, JOB_TIMEOUT := 30, SLEEP := 10,
      ISOLATION := ⟨false, []⟩, ANTI_VIRUS_SCAN := ⟨false, []⟩,
      COLLECT_INVESTIGATION_PACKAGE := ⟨false, []⟩,
      STOP_AND_QUARANTINE_FILE := ⟨false, []⟩ }
    { actionsList := fun n => if n < 2 then none else some [],
      submit := SubmitResult.okay "act1" }
    (by decide) 2 0 (by decide)
    (fun j hj => by interval_cases j <;> rfl) rfl
  refine ⟨rfl, rfl, rfl, ?_, ?_⟩
  · unfold containment_one
    rw [h]
  · unfold containment_one
    rw [h]


/-- C7 counterexample: a containment action (isolation-style loop) on an
immediately available machine submits successfully and then returns after a
single cooldown sleep of `SLEEP` seconds, performing zero status fetches of
the submitted action: it does not wait for the submitted action to reach a
terminal state. -/
theorem containment_no_terminal_wait_cex :
    (containment_one
        { MACHINE_TIMEOUT := 20, JOB_TIMEOUT := 30, SLEEP := 10,
          ISOLATION := ⟨false, []⟩, ANTI_VIRUS_SCAN := ⟨false, []⟩,
          COLLECT_INVESTIGATION_PACKAGE := ⟨false, []⟩,
          STOP_AND_QUARANTINE_FILE := ⟨false, []⟩ }
        { actionsList := fun _ => some [],
          submit := SubmitResult.okay "act1" }).submits = 1 ∧
    (containment_one
        { MACHINE_TIMEOUT := 20, JOB_TIMEOUT := 30, SLEEP := 10,
          ISOLATION := ⟨false, []⟩, ANTI_VIRUS_SCAN := ⟨false, []⟩,
          COLLECT_INVESTIGATION_PACKAGE := ⟨false, []⟩,
          STOP_AND_QUARANTINE_FILE := ⟨false, []⟩ }
        { actionsList := fun _ => some [],
          submit := SubmitResult.okay "act1" }).okSubmit = true ∧
    (containment_one
        { MACHINE_TIMEOUT := 20, JOB_TIMEOUT := 30, SLEEP := 10,
          ISOLATION := ⟨false, []⟩, ANTI_VIRUS_SCAN := ⟨false, []⟩,
          COLLECT_INVESTIGATION_PACKAGE := ⟨false, []⟩,
          STOP_AND_QUARANTINE_FILE := ⟨false, []⟩ }
        { actionsList := fun _ => some [],
          submit := SubmitResult.okay "act1" }).terminalWaitPolls = 0 ∧
    (containment_one
        { MACHINE_TIMEOUT := 20, JOB_TIMEOUT := 30, SLEEP := 10,
          ISOLATION := ⟨false, []⟩, ANTI_VIRUS_SCAN := ⟨false, []⟩,
          COLLECT_INVESTIGATION_PACKAGE := ⟨false, []⟩,
          STOP_AND_QUARANTINE_FILE := ⟨false, []⟩ }
        { actionsList := fun _ => some [],
          submit := SubmitResult.okay "act1" }).sleeps = [(10 : ℚ)] := by
  have hrun : containment_one
      { MACHINE_TIMEOUT := 20, JOB_TIMEOUT := 30, SLEEP := 10,
        ISOLATION := ⟨false, []⟩, ANTI_VIRUS_SCAN := ⟨false, []⟩,
        COLLECT_INVESTIGATION_PACKAGE := ⟨false, []⟩,
        STOP_AND_QUARANTINE_FILE := ⟨false, []⟩ }
      { actionsList := fun _ => some [],
        submit := SubmitResult.okay "act1" } =
      { availChecks := 1, submits := 1, okSubmit := true,
        errorLogged := false, sleeps := [(10 : ℚ)] } := by
    unfold containment_one
    rw [containment_loop]
    norm_num [guardQ_eval, is_machine_available, availability_scan, submitOk]
  rw [hrun]
  refine ⟨rfl, rfl, rfl, rfl⟩

/-- C7 (amended): every containment action kind (isolation, antivirus scan,
quarantine, investigation-package collection) runs the same independent
per-machine sequence over the target evidence's machine set: wait for
availability, submit once, then sleep `POLL_INTERVAL` once as a cooldown
after the submission; the submitted action is not polled to a terminal
state (the source performs no status fetch after the containment POST). -/
theorem containment_sequence_amended (cfg : MachineActionConfig)
    (hS : 0 < cfg.SLEEP) :
    (∀ (ev : Evidence) (envOf : String → ContainmentEnv),
      isolate_machine cfg ev envOf = run_antivirus_scan cfg ev envOf ∧
      isolate_machine cfg ev envOf = collect_investigation_package cfg ev envOf ∧
      isolate_machine cfg ev envOf = stop_and_quarantine_file cfg ev envOf ∧
      (isolate_machine cfg ev envOf).length = ev.machines.length) ∧
    (∀ (env : ContainmentEnv) (k : Nat),
      k * cfg.SLEEP < cfg.MACHINE_TIMEOUT →
      (∀ j, j < k → is_machine_available (env.actionsList j) = false) →
      is_machine_available (env.actionsList k) = true →
      containment_one cfg env =
        { availChecks := k + 1, submits := 1, okSubmit := submitOk env.submit,
          errorLogged := !submitOk env.submit, timeoutLogged := false,
          terminalWaitPolls := 0,
          sleeps := List.replicate k (cfg.SLEEP : ℚ) ++ [(cfg.SLEEP : ℚ)] }) := by
  refine ⟨fun ev envOf => ⟨rfl, rfl, rfl, by simp [isolate_machine]⟩, ?_⟩
  intro env k hk hfalse htrue
  unfold containment_one
  have h := containment_loop_first_avail cfg env hS k 0
    (by simpa using hk) (by simpa using hfalse) (by simpa using htrue)
  simpa using h

/-- C7 witness: a machine busy on the first check and available on the
second yields two availability checks, one submission, a busy-wait sleep
followed by the cooldown sleep, and no terminal-state polling. -/
theorem containment_sequence_amended_inst :
    containment_one
        { MACHINE_TIMEOUT := 30, JOB_TIMEOUT := 30, SLEEP := 10,
          ISOLATION := ⟨false, []⟩, ANTI_VIRUS_SCAN := ⟨false, []⟩,
          COLLECT_INVESTIGATION_PACKAGE := ⟨false, []⟩,
          STOP_AND_QUARANTINE_FILE := ⟨false, []⟩ }
        { actionsList := fun n => if n = 0 then none else some [],
          submit := SubmitResult.okay "act1" } =
      { availChecks := 2, submits := 1, okSubmit := true,
        errorLogged := false, timeoutLogged := false, terminalWaitPolls := 0,
        sleeps := List.replicate 1 ((10 : Nat) : ℚ) ++ [((10 : Nat) : ℚ)] } := by
  have h := (containment_sequence_amended
    { MACHINE_TIMEOUT := 30, JOB_TIMEOUT := 30, SLEEP := 10,
      ISOLATION := ⟨false, []⟩, ANTI_VIRUS_SCAN := ⟨false, []⟩,
      COLLECT_INVESTIGATION_PACKAGE := ⟨false, []⟩,
      STOP_AND_QUARANTINE_FILE := ⟨false, []⟩ }
    (by decide)).2
    { actionsList := fun n => if n = 0 then none else some [],
      submit := SubmitResult.okay "act1" }
    1 (by decide)
    (fun j hj => by
      interval_cases j
      rfl)
    (by rfl)
  rw [h]
  simp [submitOk]

/-- C8: the remediation planner invokes a containment kind exactly when that
kind is enabled and the sample verdict is in its configured trigger set; the
invoked kinds always appear in the fixed priority order investigation
package, antivirus scan, quarantine, isolation; and the invocation set is
independent of the per-kind outcomes (a failure in one kind cannot prevent
the evaluation of the next). -/
theorem planner_priority_and_gating (cfg : MachineActionConfig)
    (verdict : String) (ev : Evidence)
    (envOf : ActionKind → String → ContainmentEnv) :
    (∀ kind : ActionKind,
      kind ∈ (run_automated_machine_actions cfg verdict ev envOf).map Prod.fst ↔
        ((kindConfig cfg kind).ACTIVE = true ∧
          verdict ∈ (kindConfig cfg kind).VERDICTS)) ∧
    ((run_automated_machine_actions cfg verdict ev envOf).map
      Prod.fst).Pairwise (fun a b => a.priority < b.priority) ∧
    (∀ envOf2 : ActionKind → String → ContainmentEnv,
      (run_automated_machine_actions cfg verdict ev envOf2).map Prod.fst =
        (run_automated_machine_actions cfg verdict ev envOf).map Prod.fst) := by
  by_cases h1 : cfg.COLLECT_INVESTIGATION_PACKAGE.ACTIVE = true ∧
      verdict ∈ cfg.COLLECT_INVESTIGATION_PACKAGE.VERDICTS <;>
  by_cases h2 : cfg.ANTI_VIRUS_SCAN.ACTIVE = true ∧
      verdict ∈ cfg.ANTI_VIRUS_SCAN.VERDICTS <;>
  by_cases h3 : cfg.STOP_AND_QUARANTINE_FILE.ACTIVE = true ∧
      verdict ∈ cfg.STOP_AND_QUARANTINE_FILE.VERDICTS <;>
  by_cases h4 : cfg.ISOLATION.ACTIVE = true ∧
      verdict ∈ cfg.ISOLATION.VERDICTS <;>
  exact ⟨fun kind => by
      cases kind <;>
        simp [run_automated_machine_actions, kindConfig, h1, h2, h3, h4],
    by
      simp [run_automated_machine_actions, h1, h2, h3, h4,
        List.pairwise_cons, ActionKind.priority],
    fun envOf2 => by
      simp [run_automated_machine_actions, h1, h2, h3, h4]⟩

/-- C8 witness: with investigation package and isolation enabled for
verdict "malicious" and the other kinds disabled, the planner invokes
exactly those two kinds, package collection first. -/
theorem planner_priority_and_gating_inst :
    (run_automated_machine_actions
        { MACHINE_TIMEOUT := 30, JOB_TIMEOUT := 30, SLEEP := 10,
          ISOLATION := ⟨true, ["malicious"]⟩,
          ANTI_VIRUS_SCAN := ⟨false, ["malicious"]⟩,
          COLLECT_INVESTIGATION_PACKAGE := ⟨true, ["malicious"]⟩,
          STOP_AND_QUARANTINE_FILE := ⟨true, ["suspicious"]⟩ }
        "malicious"
        { sha256 := "h", sha1 := "h1", absolute_path := "/tmp/f",
          machines := ["m1"], alerts := [],
          live_response :=
            { id := none, index := 0, status := none, is_finished := false,
              has_error := false, timeout_counter := 0 },
          download_url := none }
        (fun _ _ =>
          { actionsList := fun _ => some [],
            submit := SubmitResult.okay "a1" })).map Prod.fst =
      [ActionKind.investigationPackage, ActionKind.isolation] ∧
    (ActionKind.antivirusScan ∈
        (run_automated_machine_actions
          { MACHINE_TIMEOUT := 30, JOB_TIMEOUT := 30, SLEEP := 10,
            ISOLATION := ⟨true, ["malicious"]⟩,
            ANTI_VIRUS_SCAN := ⟨false, ["malicious"]⟩,
            COLLECT_INVESTIGATION_PACKAGE := ⟨true, ["malicious"]⟩,
            STOP_AND_QUARANTINE_FILE := ⟨true, ["suspicious"]⟩ }
          "malicious"
          { sha256 := "h", sha1 := "h1", absolute_path := "/tmp/f",
            machines := ["m1"], alerts := [],
            live_response :=
              { id := none, index := 0, status := none, is_finished := false,
                has_error := false, timeout_counter := 0 },
            download_url := none }
          (fun _ _ =>
            { actionsList := fun _ => some [],
              submit := SubmitResult.okay "a1" })).map Prod.fst ↔
      False) := by
  constructor
  · simp [run_automated_machine_actions]
  · rw [(planner_priority_and_gating _ _ _ _).1 ActionKind.antivirusScan]
    simp [kindConfig]

end MSDefender
